import Mathlib

/-!
# Stream socket engine (`src/core/olsr_stream_socket.c`)

A state-passing embedding of the stream socket core.  Pointers become keys:
a listener (`struct olsr_stream_socket *`) is a natural-number address into
`World.sockets`, a session (`struct olsr_stream_session *`) is keyed by the
file descriptor of its socket in `World.sessions` (`none` = freed memory).
Results of system and library calls are supplied by explicit outcome records.
-/

namespace OlsrStream

/-! ## Data model -/

/-- Session states of `enum olsr_stream_session_state`. -/
inductive olsr_stream_session_state
  | STREAM_SESSION_ACTIVE
  | STREAM_SESSION_SEND_AND_QUIT
  | STREAM_SESSION_CLEANUP
  deriving DecidableEq, Repr

/-- Error codes handed to the `create_error` callback. -/
inductive olsr_stream_errors
  | STREAM_REQUEST_TOO_LARGE
  | STREAM_SERVICE_UNAVAILABLE
  deriving DecidableEq, Repr

open olsr_stream_session_state olsr_stream_errors

/-- Value of a `union netaddr_socket`: compared as a whole by `memcmp`; the
all-zero value is what `memset` leaves behind. -/
structure netaddr_socket where
  family : Nat
  addr : List Nat
  port : Nat
  deriving DecidableEq, Repr

/-- Value of a `struct netaddr`. -/
structure netaddr where
  type : Nat
  addr : List Nat
  deriving DecidableEq, Repr

/-- Delivered readiness mask `enum olsr_sockethandler_flags`. -/
structure olsr_sockethandler_flags where
  OLSR_SOCKET_READ : Bool
  OLSR_SOCKET_WRITE : Bool
  deriving DecidableEq, Repr

/-- Reactor registration `struct olsr_socket_entry`: the fd and the interest
currently requested for it. -/
structure olsr_socket_entry where
  fd : Nat
  event_read : Bool
  event_write : Bool
  deriving DecidableEq, Repr

/-- One connection, `struct olsr_stream_session`.  `comport` is the address of
the owning listener; `in_` and `out` are the contents of the two autobufs. -/
structure olsr_stream_session where
  scheduler_entry : olsr_socket_entry
  comport : Nat
  remote_address : netaddr
  in_ : List Nat
  out : List Nat
  state : olsr_stream_session_state
  wait_for_connect : Bool
  send_first : Bool
  deriving DecidableEq, Repr

/-- A C `int`, the type of the `allowed_sessions` counter: a 32-bit
two's-complement value. -/
structure c_int where
  val : Int
  range : -2147483648 ≤ val ∧ val ≤ 2147483647

/-- Reduction of an integer to the 32-bit two's-complement range,
`(x + 2^31) % 2^32 - 2^31`: overflowing `int` arithmetic wraps around. -/
def c_int.wrap (x : Int) : c_int :=
  { val := (x + 2147483648) % 4294967296 - 2147483648, range := by omega }

instance (n : Nat) : OfNat c_int n := ⟨c_int.wrap n⟩

instance : Add c_int := ⟨fun a b => c_int.wrap (a.val + b.val)⟩

instance : Sub c_int := ⟨fun a b => c_int.wrap (a.val - b.val)⟩

instance : Neg c_int := ⟨fun a => c_int.wrap (-a.val)⟩

instance : LT c_int := ⟨fun a b => a.val < b.val⟩

instance (a b : c_int) : Decidable (a < b) := inferInstanceAs (Decidable (a.val < b.val))

instance : DecidableEq c_int := fun a b =>
  decidable_of_iff (a.val = b.val)
    ⟨fun h => by cases a; cases b; cases h; rfl, fun h => by rw [h]⟩

/-- Listener configuration, `struct olsr_stream_config`.  User callbacks are
code outside this file: `init` yields its return value (non-zero = error),
`receive_data` yields the rewritten `in`, the rewritten `out` and the next
state, `create_error` yields the bytes it appends to `out`, and `cleanup` is
recorded by its presence (its calls are written to the event log); `acl`,
when set, is the accept check of the ACL it points to.  `allowed_sessions` is
a C `int`; `- 1`, `+ 1` and `> 0` on it are the wrapping `int` operations. -/
structure olsr_stream_config where
  memcookie : Option Nat
  allowed_sessions : c_int
  maximum_input_buffer : Nat
  session_timeout : Nat
  send_first : Bool
  acl : Option (netaddr → Bool)
  init : Option (olsr_stream_session → Int)
  cleanup : Bool
  receive_data : Option (olsr_stream_session →
    List Nat × List Nat × olsr_stream_session_state)
  create_error : Option (olsr_stream_session → olsr_stream_errors → List Nat)

/-- The configuration left by `memset(.., 0, ..)`. -/
def olsr_stream_config.zero : olsr_stream_config :=
  { memcookie := none, allowed_sessions := 0, maximum_input_buffer := 0,
    session_timeout := 0, send_first := false, acl := none, init := none,
    cleanup := false, receive_data := none, create_error := none }

/-- Listener, `struct olsr_stream_socket`.  `session` is the intrusive list of
its sessions (their keys, in list order); its own list node is represented by
membership in `World.olsr_stream_head`. -/
structure olsr_stream_socket where
  local_socket : netaddr_socket
  session : List Nat
  scheduler_entry : Option olsr_socket_entry
  config : olsr_stream_config

/-- The listener left by `memset(comport, 0, sizeof(comport))`. -/
def olsr_stream_socket.zero : olsr_stream_socket :=
  { local_socket := { family := 0, addr := [], port := 0 }, session := [],
    scheduler_entry := none, config := olsr_stream_config.zero }

/-- Calls that leave the engine: user callbacks and fd/reactor operations, in
the order they happen. -/
inductive Event
  | cleanup (fd : Nat)
  | create_error (fd : Nat) (code : olsr_stream_errors)
  | init (fd : Nat)
  | receive_data (fd : Nat)
  | os_close (fd : Int)
  | olsr_socket_add (fd : Nat)
  | olsr_socket_remove (fd : Nat)
  deriving DecidableEq, Repr

/-- Engine state: the registry `olsr_stream_head`, the listener structs, the
allocated sessions, the idle timers currently armed in the timer wheel (by the
session each one carries as context) and the event log. -/
structure World where
  olsr_stream_head : List Nat
  sockets : Nat → olsr_stream_socket
  sessions : Nat → Option olsr_stream_session
  timers : List Nat
  log : List Event

/-- The engine right after `olsr_stream_init`. -/
def World.init : World :=
  { olsr_stream_head := [], sockets := fun _ => olsr_stream_socket.zero,
    sessions := fun _ => none, timers := [], log := [] }

/-- The engine-wide session allocator `connection_cookie`. -/
def connection_cookie : Nat := 1

/-! ## Collaborators outside the sources -/

/-- Modelled from the spec: `common/list.h` is not among the sources.  The
container "exposes push_back, remove_self, is_linked"; `list_add_tail` is
push_back on the ordered list of keys. -/
def list_add_tail (head : List Nat) (node : Nat) : List Nat := head ++ [node]

/-- Modelled from the spec: `list_remove` of `common/list.h` (remove_self)
unlinks the node from the list it is in. -/
def list_remove (head : List Nat) (node : Nat) : List Nat := head.erase node

/-- Modelled from the spec: `list_node_added` of `common/list.h` (is_linked). -/
def list_node_added (head : List Nat) (node : Nat) : Bool := head.contains node

/-- Modelled from the spec: `olsr_timer_start` of the timer wheel, "start(..)
-> timer_handle", arms a one-shot timer carrying the session as context. -/
def olsr_timer_start (timers : List Nat) (ctx : Nat) : List Nat := ctx :: timers

/-- Modelled from the spec: `olsr_timer_stop`, "stop(timer_handle) cancels;
callback will not fire after return". -/
def olsr_timer_stop (timers : List Nat) (ctx : Nat) : List Nat :=
  timers.filter (fun t => t != ctx)

/-- Modelled from the spec: `olsr_timer_set`, "restarts an existing or null
handle"; a relative time of zero leaves no timer armed. -/
def olsr_timer_set (timers : List Nat) (rel_time : Nat) (ctx : Nat) : List Nat :=
  if rel_time = 0 then olsr_timer_stop timers ctx
  else olsr_timer_start (olsr_timer_stop timers ctx) ctx

/-! ## `olsr_stream_close` -/

/-- Source `olsr_stream_set_timeout`. -/
def olsr_stream_set_timeout (w : World) (con : Nat) (timeout : Nat) : World :=
  { w with timers := olsr_timer_set w.timers timeout con }

/-- Source `olsr_stream_close`: cleanup callback if set, `allowed_sessions++`,
unlink from the listener, close the fd, drop the reactor entry, free the
session.  A freed key is left alone. -/
def olsr_stream_close (w : World) (fd : Nat) : World :=
  match w.sessions fd with
  | none => w
  | some session =>
    let comport := w.sockets session.comport
    let log1 := if comport.config.cleanup then w.log ++ [Event.cleanup fd] else w.log
    let comport1 : olsr_stream_socket :=
      { comport with
        config := { comport.config with
          allowed_sessions := comport.config.allowed_sessions + 1 },
        session := list_remove comport.session fd }
    { w with
      sockets := Function.update w.sockets session.comport comport1,
      sessions := Function.update w.sessions fd none,
      log := log1 ++ [Event.os_close (session.scheduler_entry.fd : Int),
                      Event.olsr_socket_remove session.scheduler_entry.fd] }

/-- Source `_timeout_handler`: the one-shot timer has fired (it is no longer
armed) and the session is closed. -/
def _timeout_handler (w : World) (fd : Nat) : World :=
  olsr_stream_close { w with timers := w.timers.erase fd } fd

/-! ## `olsr_stream_add` and `olsr_stream_remove` -/

/-- Outcomes of the calls made by `olsr_stream_add`: the fd returned by
`os_net_getsocket` (negative on error), and whether `listen` and
`olsr_socket_add` succeed. -/
structure add_outcome where
  os_net_getsocket : Int
  listen_ok : Bool
  olsr_socket_add_ok : Bool
  deriving DecidableEq, Repr

/-- Source `olsr_stream_add`.  Returns the new world and the return code.
The struct is zeroed first, so the defaults (10 sessions, 65536 bytes, the
shared allocator) are always filled in; at `add_stream_error` the reactor
entry is still `NULL`, so only the socket is closed there.  The source
expects an unlinked struct: zeroing a listener that is still linked corrupts
the intrusive list in C, and the registry below, which then lists the key
twice, no longer describes it. -/
def olsr_stream_add (w : World) (comport : Nat) (loc : netaddr_socket)
    (o : add_outcome) : World × Int :=
  let w0 := { w with sockets := Function.update w.sockets comport olsr_stream_socket.zero }
  let s := o.os_net_getsocket
  let add_stream_error : World × Int :=
    (if s ≠ -1 then { w0 with log := w0.log ++ [Event.os_close s] } else w0, -1)
  if s < 0 then
    add_stream_error
  else if !o.listen_ok then
    add_stream_error
  else if !o.olsr_socket_add_ok then
    add_stream_error
  else
    let c : olsr_stream_socket :=
      { local_socket := loc,
        session := [],
        scheduler_entry :=
          some { fd := s.toNat, event_read := true, event_write := false },
        config := { olsr_stream_config.zero with
          memcookie := some connection_cookie,
          allowed_sessions := 10, maximum_input_buffer := 65536 } }
    ({ w0 with
        sockets := Function.update w0.sockets comport c,
        olsr_stream_head := list_add_tail w0.olsr_stream_head comport,
        log := w0.log ++ [Event.olsr_socket_add s.toNat] }, 0)

/-- The `while (!list_is_empty(&comport->session))` loop of
`olsr_stream_remove`: close the first session until the list is empty. -/
def olsr_stream_remove_loop : Nat → World → Nat → World
  | 0, w, _ => w
  | fuel + 1, w, comport =>
    match (w.sockets comport).session with
    | [] => w
    | session :: _ => olsr_stream_remove_loop fuel (olsr_stream_close w session) comport

/-- Source `olsr_stream_remove`.  When the given listener is linked, the
source reassigns `comport` to the first element of `olsr_stream_head` and
works on that one. -/
def olsr_stream_remove (w : World) (comport : Nat) : World :=
  if list_node_added w.olsr_stream_head comport then
    match w.olsr_stream_head with
    | [] => w
    | first :: _ =>
      let w1 := olsr_stream_remove_loop (w.sockets first).session.length w first
      let w2 := { w1 with olsr_stream_head := list_remove w1.olsr_stream_head first }
      match (w2.sockets first).scheduler_entry with
      | some e =>
        { w2 with log := w2.log ++ [Event.os_close (e.fd : Int), Event.olsr_socket_remove e.fd] }
      | none => w2
  else w

/-! ## Session admission -/

/-- Outcomes of the calls made by `_create_session` before admission. -/
structure create_outcome where
  os_net_set_nonblocking_fail : Bool
  olsr_memcookie_malloc_fail : Bool
  abuf_init_in_fail : Bool
  abuf_init_out_fail : Bool
  olsr_socket_add_fail : Bool
  deriving DecidableEq, Repr

/-- Lines 440-449 of `_create_session`: the test
`comport->config.allowed_sessions-- > 0` with its two branches.  The counter
is decremented by the test itself, whichever branch is taken (an `int`
decrement: at `INT_MIN` it wraps to `INT_MAX`); the test looks at the value
before the decrement. -/
def create_session_quota (w : World) (comport : Nat) (sock : Nat)
    (session : olsr_stream_session) : World × olsr_stream_session :=
  let cfg := (w.sockets comport).config
  let w1 := { w with
    sockets := Function.update w.sockets comport
      { w.sockets comport with
        config := { cfg with allowed_sessions := cfg.allowed_sessions - 1 } } }
  if cfg.allowed_sessions > 0 then
    (w1, { session with state := STREAM_SESSION_ACTIVE })
  else
    match cfg.create_error with
    | some f =>
      ({ w1 with log := w1.log ++ [Event.create_error sock STREAM_SERVICE_UNAVAILABLE] },
       { session with
          out := session.out ++ f session STREAM_SERVICE_UNAVAILABLE,
          state := STREAM_SESSION_SEND_AND_QUIT })
    | none => (w1, { session with state := STREAM_SESSION_SEND_AND_QUIT })

/-- Lines 451-454 of `_create_session`: arm the idle timer. -/
def create_session_timeout (w : World) (comport : Nat) (sock : Nat) : World :=
  if (w.sockets comport).config.session_timeout ≠ 0 then
    { w with timers := olsr_timer_start w.timers sock }
  else w

/-- Lines 465-466 of `_create_session`: link the session into the list of its
listener and return it. -/
def create_session_link (w : World) (comport : Nat) (sock : Nat)
    (session : olsr_stream_session) : World × Option Nat :=
  ({ w with
      sockets := Function.update w.sockets comport
        { w.sockets comport with
          session := list_add_tail (w.sockets comport).session sock },
      sessions := Function.update w.sessions sock (some session) },
   some sock)

/-- Lines 456-474 of `_create_session`: the `init` callback, then either the
`parse_request_error` exit (the session is freed, `NULL` returned) or the
link. -/
def create_session_init (w : World) (comport : Nat) (sock : Nat)
    (session : olsr_stream_session) : World × Option Nat :=
  match (w.sockets comport).config.init with
  | some f =>
    let w1 := { w with log := w.log ++ [Event.init sock] }
    if f session ≠ 0 then (w1, none) else create_session_link w1 comport sock session
  | none => create_session_link w comport sock session

/-- Lines 413-438 of `_create_session`: the session as allocated (zeroed
memory), with its two empty buffers, its reactor entry registered for
`READ|WRITE`, `send_first` copied from the configuration, owner and peer
address recorded. -/
def create_session_alloc (w : World) (comport : Nat) (sock : Nat)
    (remote_addr : netaddr) : olsr_stream_session :=
  { scheduler_entry := { fd := sock, event_read := true, event_write := true },
    comport := comport,
    remote_address := remote_addr,
    in_ := [], out := [],
    state := STREAM_SESSION_ACTIVE,
    wait_for_connect := false,
    send_first := (w.sockets comport).config.send_first }

/-- Source `_create_session`.  Returns the new world and the created session
(its key), `none` for `NULL`.  The allocator hands out zeroed memory, so
`wait_for_connect` starts false.  On the `parse_request_error` path the
session is freed and nothing that was done before the jump is undone. -/
def _create_session (w : World) (comport : Nat) (sock : Nat)
    (remote_addr : netaddr) (o : create_outcome) : World × Option Nat :=
  if o.os_net_set_nonblocking_fail then (w, none)
  else if o.olsr_memcookie_malloc_fail then (w, none)
  else if o.abuf_init_in_fail then (w, none)
  else if o.abuf_init_out_fail then (w, none)
  else if o.olsr_socket_add_fail then (w, none)
  else
    let w1 := { w with log := w.log ++ [Event.olsr_socket_add sock] }
    let session0 := create_session_alloc w comport sock remote_addr
    let r := create_session_quota w1 comport sock session0
    let w2 := create_session_timeout r.1 comport sock
    create_session_init w2 comport sock r.2

/-- Outcomes of the calls made by `_parse_request`: the fd returned by
`accept` (negative on error) and the peer address. -/
structure accept_outcome where
  accept : Int
  remote_addr : netaddr
  create : create_outcome
  deriving DecidableEq, Repr

/-- Source `_parse_request`, the accept path of a listener. -/
def _parse_request (w : World) (comport : Nat) (flags : olsr_sockethandler_flags)
    (o : accept_outcome) : World :=
  if !flags.OLSR_SOCKET_READ then w
  else if o.accept < 0 then w
  else
    let blocked : Bool :=
      match (w.sockets comport).config.acl with
      | some check => !check o.remote_addr
      | none => false
    if blocked then { w with log := w.log ++ [Event.os_close o.accept] }
    else (_create_session w comport o.accept.toNat o.remote_addr o.create).1

/-- Outcomes of the calls made by `olsr_stream_connect_to`. -/
structure connect_outcome where
  os_net_getsocket : Int
  connect : Int
  errno_einprogress : Bool
  remote_addr : netaddr
  create : create_outcome
  deriving DecidableEq, Repr

/-- Source `olsr_stream_connect_to`. -/
def olsr_stream_connect_to (w : World) (comport : Nat) (o : connect_outcome) :
    World × Option Nat :=
  let s := o.os_net_getsocket
  let connect_to_error (w1 : World) : World × Option Nat :=
    (if s ≠ 0 then { w1 with log := w1.log ++ [Event.os_close s] } else w1, none)
  if s < 0 then (w, none)
  else if o.connect ≠ 0 ∧ !o.errno_einprogress then connect_to_error w
  else
    let wait_for_connect : Bool := decide (o.connect ≠ 0)
    match _create_session w comport s.toNat o.remote_addr o.create with
    | (w1, some fd) =>
      match w1.sessions fd with
      | some session =>
        let session1 := { session with wait_for_connect := wait_for_connect }
        ({ w1 with sessions := Function.update w1.sessions fd (some session1) }, some fd)
      | none => (w1, some fd)
    | (w1, none) => connect_to_error w1

/-! ## The connected-readiness handler -/

/-- Result of `recv(fd, buffer, sizeof(buffer), 0)`: the bytes the socket has
ready (an empty list is end of stream), or a failure, flagged when `errno` is
one of `EINTR`, `EAGAIN`, `EWOULDBLOCK`. -/
inductive recv_result
  | bytes (ready : List Nat)
  | error (errno_retry : Bool)
  deriving DecidableEq, Repr

/-- The part of the ready bytes that fits the 1024-byte scratch buffer. -/
def recv_result.buffer : recv_result → List Nat
  | .bytes ready => ready.take 1024
  | .error _ => []

/-- The return value `len` of `recv`. -/
def recv_result.len (r : recv_result) : Int :=
  match r with
  | .bytes _ => (r.buffer.length : Int)
  | .error _ => -1

/-- Whether `errno` after `recv`/`send` is `EINTR`, `EAGAIN` or `EWOULDBLOCK`. -/
def recv_result.errno_retry : recv_result → Bool
  | .bytes _ => false
  | .error b => b

/-- Result of `send(fd, out.buf, out.len, 0)`: the number of bytes the socket
is willing to take, or a failure, flagged as for `recv`. -/
inductive send_result
  | sent (room : Nat)
  | error (errno_retry : Bool)
  deriving DecidableEq, Repr

/-- The return value `len` of `send` for `out_len` offered bytes. -/
def send_result.len (r : send_result) (out_len : Nat) : Int :=
  match r with
  | .sent room => (min room out_len : Nat)
  | .error _ => -1

/-- Whether `errno` after `send` is `EINTR`, `EAGAIN` or `EWOULDBLOCK`. -/
def send_result.errno_retry : send_result → Bool
  | .sent _ => false
  | .error b => b

/-- Outcomes of the system and library calls of one `_parse_connection` run:
`getsockopt(SO_ERROR)` (failure flag and reported value), `recv`,
`abuf_memcpy` (failure flag) and `send`. -/
structure parse_outcome where
  getsockopt_fail : Bool
  value : Int
  recv : recv_result
  abuf_memcpy_fail : Bool
  send : send_result
  deriving DecidableEq, Repr

/-- Modelled from the spec: `abuf_pull` of `common/autobuf.h`, "drop N bytes
from head". -/
def abuf_pull (buf : List Nat) (len : Nat) : List Nat := buf.drop len

/-- Modelled from the spec: `olsr_socket_enable(entry, OLSR_SOCKET_WRITE)` of
the reactor, "toggle interest without re-registering". -/
def olsr_socket_enable_write (e : olsr_socket_entry) : olsr_socket_entry :=
  { e with event_write := true }

/-- Modelled from the spec: `olsr_socket_disable(entry, OLSR_SOCKET_WRITE)`. -/
def olsr_socket_disable_write (e : olsr_socket_entry) : olsr_socket_entry :=
  { e with event_write := false }

/-- Source `olsr_stream_flush`. -/
def olsr_stream_flush (con : olsr_stream_session) : olsr_stream_session :=
  { con with scheduler_entry := olsr_socket_enable_write con.scheduler_entry }

/-- Lines 498-519 of `_parse_connection`: resolution of a deferred connect. -/
def parse_connection_connect (session : olsr_stream_session)
    (flags : olsr_sockethandler_flags) (o : parse_outcome) : olsr_stream_session :=
  if session.wait_for_connect then
    if flags.OLSR_SOCKET_WRITE then
      if o.getsockopt_fail then
        { session with state := STREAM_SESSION_CLEANUP }
      else if o.value ≠ 0 then
        { session with state := STREAM_SESSION_CLEANUP }
      else
        { session with wait_for_connect := false }
    else session
  else session

/-- Lines 525-555 of `_parse_connection`: read data if necessary.  `fd` is the
key of the session, the descriptor of its socket. -/
def parse_connection_recv (w : World) (fd : Nat) (session : olsr_stream_session)
    (cfg : olsr_stream_config) (flags : olsr_sockethandler_flags)
    (o : parse_outcome) : World × olsr_stream_session :=
  if session.state = STREAM_SESSION_ACTIVE ∧ flags.OLSR_SOCKET_READ then
    let len := o.recv.len
    if len > 0 then
      if o.abuf_memcpy_fail then
        (w, { session with state := STREAM_SESSION_CLEANUP })
      else
        let session1 := { session with in_ := session.in_ ++ o.recv.buffer.take len.toNat }
        if session1.in_.length > cfg.maximum_input_buffer then
          match cfg.create_error with
          | some f =>
            ({ w with log := w.log ++ [Event.create_error fd STREAM_REQUEST_TOO_LARGE] },
             { session1 with
                out := session1.out ++ f session1 STREAM_REQUEST_TOO_LARGE,
                state := STREAM_SESSION_SEND_AND_QUIT })
          | none => (w, { session1 with state := STREAM_SESSION_SEND_AND_QUIT })
        else
          (olsr_stream_set_timeout w fd cfg.session_timeout, session1)
    else if len < 0 ∧ !o.recv.errno_retry then
      (w, { session with state := STREAM_SESSION_CLEANUP })
    else if len = 0 then
      (w, { session with state := STREAM_SESSION_SEND_AND_QUIT })
    else (w, session)
  else (w, session)

/-- Lines 557-561 of `_parse_connection`: hand the input to `receive_data`. -/
def parse_connection_receive (w : World) (fd : Nat) (session : olsr_stream_session)
    (cfg : olsr_stream_config) : World × olsr_stream_session :=
  match cfg.receive_data with
  | some f =>
    if session.state = STREAM_SESSION_ACTIVE ∧
        (session.in_.length > 0 ∨ session.send_first) then
      let r := f session
      ({ w with log := w.log ++ [Event.receive_data fd] },
       { session with in_ := r.1, out := r.2.1, state := r.2.2, send_first := false })
    else (w, session)
  | none => (w, session)

/-- Lines 563-582 of `_parse_connection`: send data if necessary. -/
def parse_connection_send (w : World) (fd : Nat) (session : olsr_stream_session)
    (cfg : olsr_stream_config) (flags : olsr_sockethandler_flags)
    (o : parse_outcome) : World × olsr_stream_session :=
  if session.state ≠ STREAM_SESSION_CLEANUP ∧ session.out.length > 0 then
    if flags.OLSR_SOCKET_WRITE then
      let len := o.send.len session.out.length
      if len > 0 then
        (olsr_stream_set_timeout w fd cfg.session_timeout,
         { session with out := abuf_pull session.out len.toNat })
      else if len < 0 ∧ !o.send.errno_retry then
        (w, { session with state := STREAM_SESSION_CLEANUP })
      else (w, session)
    else
      (w, olsr_stream_flush session)
  else (w, session)

/-- Lines 584-591 of `_parse_connection`: nothing to send anymore. -/
def parse_connection_drain (session : olsr_stream_session) : olsr_stream_session :=
  if session.out.length = 0 then
    let session1 :=
      { session with scheduler_entry := olsr_socket_disable_write session.scheduler_entry }
    if session1.state = STREAM_SESSION_SEND_AND_QUIT then
      { session1 with state := STREAM_SESSION_CLEANUP }
    else session1
  else session

/-- Lines 525-591 of `_parse_connection` for a session that is not waiting for
its connect: the read, parse, write and drain phases in source order. -/
def parse_connection_body (w : World) (fd : Nat) (session : olsr_stream_session)
    (cfg : olsr_stream_config) (flags : olsr_sockethandler_flags)
    (o : parse_outcome) : World × olsr_stream_session :=
  let r1 := parse_connection_recv w fd session cfg flags o
  let r2 := parse_connection_receive r1.1 fd r1.2 cfg
  let r3 := parse_connection_send r2.1 fd r2.2 cfg flags o
  (r3.1, parse_connection_drain r3.2)

/-- Source `_parse_connection`, the readiness handler of a session.  After the
phases the session is written back; in state `CLEANUP` the idle timer is
stopped and the session closed. -/
def _parse_connection (w : World) (fd : Nat) (flags : olsr_sockethandler_flags)
    (o : parse_outcome) : World :=
  match w.sessions fd with
  | none => w
  | some session0 =>
    let cfg := (w.sockets session0.comport).config
    let session1 := parse_connection_connect session0 flags o
    if session1.wait_for_connect then
      { w with sessions := Function.update w.sessions fd (some session1) }
    else
      let r := parse_connection_body w fd session1 cfg flags o
      let w1 := { r.1 with sessions := Function.update r.1.sessions fd (some r.2) }
      if r.2.state = STREAM_SESSION_CLEANUP then
        olsr_stream_close { w1 with timers := olsr_timer_stop w1.timers fd } fd
      else w1

/-- A sequence of readiness events delivered to one session: `_parse_connection`
is run for each delivered mask with the outcomes of its system calls, in
order. -/
def parse_connection_run (w : World) (fd : Nat) :
    List (olsr_sockethandler_flags × parse_outcome) → World
  | [] => w
  | ev :: rest => parse_connection_run (_parse_connection w fd ev.1 ev.2) fd rest

/-! ## Managed endpoints -/

/-- Configuration handed to `olsr_stream_apply_managed`,
`struct olsr_stream_managed_config`; the ACL is kept as an opaque value. -/
structure olsr_stream_managed_config where
  acl : List Nat
  bindto_v4 : netaddr
  bindto_v6 : netaddr
  port : Nat
  deriving DecidableEq, Repr

/-- Managed endpoint, `struct olsr_stream_managed`.  Its two embedded
listeners live in `World.sockets` at the addresses `socket_v4`, `socket_v6`. -/
structure olsr_stream_managed where
  socket_v4 : Nat
  socket_v6 : Nat
  config : olsr_stream_config
  acl : List Nat

/-- What `olsr_stream_apply_managed` takes from outside: the global
`config_global.ipv4`/`ipv6` switches, the address constructor
`netaddr_socket_init` (`none` = failure) and the outcomes of the socket calls
of the `olsr_stream_add` each family may run. -/
structure managed_outcome where
  ipv4 : Bool
  ipv6 : Bool
  netaddr_socket_init : netaddr → Nat → Option netaddr_socket
  add_v4 : add_outcome
  add_v6 : add_outcome

/-- Source `olsr_stream_add_managed`: zero the endpoint and set the defaults.
The addresses of the two embedded listeners are those of the struct. -/
def olsr_stream_add_managed (managed : olsr_stream_managed) : olsr_stream_managed :=
  { managed with
    config := { olsr_stream_config.zero with
      allowed_sessions := 10, maximum_input_buffer := 65536,
      session_timeout := 120000 },
    acl := [] }

/-- Source `_apply_managed_socket`. -/
def _apply_managed_socket (w : World) (managed : olsr_stream_managed) (stream : Nat)
    (bindto : netaddr) (port : Nat)
    (netaddr_socket_init : netaddr → Nat → Option netaddr_socket)
    (o : add_outcome) : World × Int :=
  match netaddr_socket_init bindto port with
  | none => (w, -1)
  | some sock =>
    if sock = (w.sockets stream).local_socket then
      (w, 0)
    else
      let w1 := olsr_stream_remove w stream
      let r := olsr_stream_add w1 stream sock o
      if r.2 ≠ 0 then (r.1, -1)
      else
        let w2 := r.1
        let config : olsr_stream_config :=
          if managed.config.memcookie = none then
            { managed.config with memcookie := some connection_cookie }
          else managed.config
        ({ w2 with
            sockets := Function.update w2.sockets stream
              { w2.sockets stream with config := config } }, 0)

/-- Source `olsr_stream_apply_managed`.  Returns the world, the endpoint (its
ACL is overwritten first) and the return code. -/
def olsr_stream_apply_managed (w : World) (managed : olsr_stream_managed)
    (config : olsr_stream_managed_config) (o : managed_outcome) :
    World × olsr_stream_managed × Int :=
  let managed1 := { managed with acl := config.acl }
  let r4 : World × Int :=
    if o.ipv4 then
      _apply_managed_socket w managed1 managed1.socket_v4 config.bindto_v4 config.port
        o.netaddr_socket_init o.add_v4
    else (olsr_stream_remove w managed1.socket_v4, 0)
  if r4.2 ≠ 0 then (r4.1, managed1, -1)
  else
    let r6 : World × Int :=
      if o.ipv6 then
        _apply_managed_socket r4.1 managed1 managed1.socket_v6 config.bindto_v6
          config.port o.netaddr_socket_init o.add_v6
      else (olsr_stream_remove r4.1 managed1.socket_v6, 0)
    if r6.2 ≠ 0 then (r6.1, managed1, -1)
    else (r6.1, managed1, 0)

/-- Source `olsr_stream_remove_managed`. -/
def olsr_stream_remove_managed (w : World) (managed : olsr_stream_managed) :
    World × olsr_stream_managed :=
  (olsr_stream_remove (olsr_stream_remove w managed.socket_v4) managed.socket_v6,
   { managed with acl := [] })

/-! ## Concrete scenarios -/

/-- Socket calls of `olsr_stream_add` all succeeding, with `fd` as the socket. -/
def add_ok (fd : Int) : add_outcome :=
  { os_net_getsocket := fd, listen_ok := true, olsr_socket_add_ok := true }

/-- Admission calls of `_create_session` all succeeding. -/
def create_ok : create_outcome :=
  { os_net_set_nonblocking_fail := false, olsr_memcookie_malloc_fail := false,
    abuf_init_in_fail := false, abuf_init_out_fail := false,
    olsr_socket_add_fail := false }

/-- A peer address, 10.0.0.1. -/
def peer : netaddr := { type := 2, addr := [10, 0, 0, 1] }

/-- Listener 1 bound to 127.0.0.1:7000 (fd 3) in a fresh engine. -/
def world_one_listener : World :=
  (olsr_stream_add World.init 1 { family := 2, addr := [127, 0, 0, 1], port := 7000 }
    (add_ok 3)).1

/-- Listener 1 with one accepted session (fd 5). -/
def world_one_session : World :=
  (_create_session world_one_listener 1 5 peer create_ok).1

/-- A second listener, 2, added on 127.0.0.1:7001 (fd 4) to the registry that
holds listener 1 and its session. -/
def world_two_listeners : World × Int :=
  olsr_stream_add world_one_session 2
    { family := 2, addr := [127, 0, 0, 1], port := 7001 } (add_ok 4)

/-- Address constructor used in the scenarios: IPv4 (2) and IPv6 (10) give a
socket address, anything else fails. -/
def scenario_socket_init (a : netaddr) (port : Nat) : Option netaddr_socket :=
  if a.type = 2 ∨ a.type = 10 then some { family := a.type, addr := a.addr, port := port }
  else none

/-- A managed endpoint whose listeners are at addresses 1 (v4) and 2 (v6). -/
def scenario_managed : olsr_stream_managed :=
  olsr_stream_add_managed
    { socket_v4 := 1, socket_v6 := 2, config := olsr_stream_config.zero, acl := [] }

/-- Managed configuration `0.0.0.0:7000` + `[::]:7000`. -/
def managed_config_any : olsr_stream_managed_config :=
  { acl := [], bindto_v4 := { type := 2, addr := [0, 0, 0, 0] },
    bindto_v6 := { type := 10, addr := List.replicate 16 0 }, port := 7000 }

/-- The same configuration with the v6 bind address changed to `::1`. -/
def managed_config_v6_loopback : olsr_stream_managed_config :=
  { managed_config_any with
    bindto_v6 := { type := 10, addr := List.replicate 15 0 ++ [1] } }

/-- Both families enabled, all socket calls succeeding with the given fds. -/
def managed_ok (fd4 fd6 : Int) : managed_outcome :=
  { ipv4 := true, ipv6 := true, netaddr_socket_init := scenario_socket_init,
    add_v4 := add_ok fd4, add_v6 := add_ok fd6 }

/-- The managed endpoint active on both families (fds 3 and 4). -/
def world_managed : World × olsr_stream_managed × Int :=
  olsr_stream_apply_managed World.init scenario_managed managed_config_any (managed_ok 3 4)

/-- The active managed endpoint with one live session (fd 5) on its v4
listener. -/
def world_managed_session : World :=
  (_create_session world_managed.1 1 5 peer create_ok).1

/-- Reconfiguration of the active endpoint: v4 unchanged, v6 bind changed. -/
def world_managed_reapplied : World × olsr_stream_managed × Int :=
  olsr_stream_apply_managed world_managed_session world_managed.2.1
    managed_config_v6_loopback (managed_ok 6 7)

/-- User code filling in the configuration of a listener after
`olsr_stream_add` (the struct is public; `_apply_managed_socket` does the same
with `memcpy`). -/
def set_config (w : World) (comport : Nat)
    (f : olsr_stream_config → olsr_stream_config) : World :=
  let c := w.sockets comport
  { w with sockets := Function.update w.sockets comport { c with config := f c.config } }

/-- Listener 1 configured with a quota of one session, an 8-byte input cap,
a `create_error` callback that queues the two bytes `[52, 48]`, and a
`cleanup` callback. -/
def world_quota_one : World :=
  set_config world_one_listener 1 (fun c =>
    { c with allowed_sessions := 1, maximum_input_buffer := 8, cleanup := true,
             create_error := some (fun _ _ => [52, 48]) })

/-- The quota-one listener after its first session (fd 5) was admitted. -/
def world_quota_used : World :=
  (_create_session world_quota_one 1 5 peer create_ok).1

/-- The quota-one listener after a second session (fd 6) arrived. -/
def world_quota_over : World :=
  (_create_session world_quota_used 1 6 peer create_ok).1

/-- Listener 1 configured with an `init` callback that reports an error, a
`cleanup` callback and a 120 s idle timeout. -/
def world_init_fails : World :=
  set_config world_one_listener 1 (fun c =>
    { c with init := some (fun _ => 1), cleanup := true, session_timeout := 120000 })

/-- Listener 1 configured with a `cleanup` callback and a 120 s idle timeout. -/
def world_timeout_listener : World :=
  set_config world_one_listener 1 (fun c =>
    { c with cleanup := true, session_timeout := 120000 })

/-- The timeout listener with one accepted session (fd 5), idle timer armed. -/
def world_timeout_session : World :=
  (_create_session world_timeout_listener 1 5 peer create_ok).1

/-- The timeout listener with one outbound session (fd 5) whose `connect`
reported `EINPROGRESS`. -/
def world_connecting : World :=
  (olsr_stream_connect_to world_timeout_listener 1
    { os_net_getsocket := 5, connect := -1, errno_einprogress := true,
      remote_addr := peer, create := create_ok }).1

/-- Readiness mask with only READ delivered. -/
def flags_read : olsr_sockethandler_flags :=
  { OLSR_SOCKET_READ := true, OLSR_SOCKET_WRITE := false }

/-- Readiness mask with only WRITE delivered. -/
def flags_write : olsr_sockethandler_flags :=
  { OLSR_SOCKET_READ := false, OLSR_SOCKET_WRITE := true }

/-- Outcome in which `SO_ERROR` reports `ECONNREFUSED` (111); nothing to read
or send. -/
def outcome_refused : parse_outcome :=
  { getsockopt_fail := false, value := 111, recv := recv_result.error true,
    abuf_memcpy_fail := false, send := send_result.error true }

/-- The `SO_ERROR` query itself fails. -/
def outcome_sockopt_fails : parse_outcome :=
  { getsockopt_fail := true, value := 0, recv := recv_result.error true,
    abuf_memcpy_fail := false, send := send_result.error true }

/-- Sixteen bytes are ready to be read; the socket takes one byte per `send`. -/
def outcome_recv16 : parse_outcome :=
  { getsockopt_fail := false, value := 0, recv := recv_result.bytes (List.replicate 16 65),
    abuf_memcpy_fail := false, send := send_result.sent 1 }

/-- Three bytes are ready to be read; the socket takes one byte per `send`. -/
def outcome_recv3 : parse_outcome :=
  { getsockopt_fail := false, value := 0, recv := recv_result.bytes [71, 69, 84],
    abuf_memcpy_fail := false, send := send_result.sent 1 }

/-- A fatal `recv` error (errno outside `EINTR`, `EAGAIN`, `EWOULDBLOCK`). -/
def outcome_recv_fatal : parse_outcome :=
  { getsockopt_fail := false, value := 0, recv := recv_result.error false,
    abuf_memcpy_fail := false, send := send_result.error true }

/-- Session 5 of the quota-one listener as `_create_session` left it. -/
def session_five : olsr_stream_session :=
  { scheduler_entry := { fd := 5, event_read := true, event_write := true },
    comport := 1, remote_address := peer, in_ := [], out := [],
    state := STREAM_SESSION_ACTIVE, wait_for_connect := false, send_first := false }

/-- Session 6 of the quota-one listener, rejected over quota with the two
bytes of the error reply queued. -/
def session_six : olsr_stream_session :=
  { scheduler_entry := { fd := 6, event_read := true, event_write := true },
    comport := 1, remote_address := peer, in_ := [], out := [52, 48],
    state := STREAM_SESSION_SEND_AND_QUIT, wait_for_connect := false, send_first := false }

/-- Session 6 after the first byte of its reply was sent. -/
def session_six_sent : olsr_stream_session :=
  { scheduler_entry := { fd := 6, event_read := true, event_write := true },
    comport := 1, remote_address := peer, in_ := [], out := [48],
    state := STREAM_SESSION_SEND_AND_QUIT, wait_for_connect := false, send_first := false }

/-- An echo parser for `receive_data`: consumes all of `in`, queues it on
`out`, stays `ACTIVE`. -/
def echo_receive_data (s : olsr_stream_session) :
    List Nat × List Nat × olsr_stream_session_state :=
  ([], s.out ++ s.in_, STREAM_SESSION_ACTIVE)

/-- Listener 1 with an 8-byte input cap and the echo parser, and its session
(fd 5). -/
def world_echo : World :=
  (_create_session
    (set_config world_one_listener 1 (fun c =>
      { c with maximum_input_buffer := 8, receive_data := some echo_receive_data }))
    1 5 peer create_ok).1

/-- Session 5 of the echo listener after `GET` was read and echoed to `out`. -/
def session_five_echoed : olsr_stream_session :=
  { scheduler_entry := { fd := 5, event_read := true, event_write := true },
    comport := 1, remote_address := peer, in_ := [], out := [71, 69, 84],
    state := STREAM_SESSION_ACTIVE, wait_for_connect := false, send_first := false }

/-- Global switches with IPv6 turned off; IPv4 enabled, socket calls succeeding. -/
def managed_v6_off : managed_outcome :=
  { ipv4 := true, ipv6 := false, netaddr_socket_init := scenario_socket_init,
    add_v4 := add_ok 6, add_v6 := add_ok 7 }

/-- The active managed endpoint (one live session on v4) applied with its
unchanged configuration after IPv6 was switched off globally. -/
def world_managed_v6_off : World × olsr_stream_managed × Int :=
  olsr_stream_apply_managed world_managed_session world_managed.2.1
    managed_config_any managed_v6_off

/-- The same configuration applied a second time, with the same switches. -/
def world_managed_v6_off_again : World × olsr_stream_managed × Int :=
  olsr_stream_apply_managed world_managed_v6_off.1 world_managed_v6_off.2.1
    managed_config_any managed_v6_off

/-- Listener 1 with an 8-byte input cap, a `cleanup` callback and a
`create_error` callback that queues nothing, and its session (fd 5). -/
def world_cap : World :=
  (_create_session
    (set_config world_one_listener 1 (fun c =>
      { c with maximum_input_buffer := 8, cleanup := true,
               create_error := some (fun _ _ => []) }))
    1 5 peer create_ok).1

/-- Three readiness events: sixteen bytes readable, three bytes readable,
then WRITE. -/
def events_overflow : List (olsr_sockethandler_flags × parse_outcome) :=
  [(flags_read, outcome_recv16), (flags_read, outcome_recv3), (flags_write, outcome_recv16)]

/-! ## Theorems -/

/-! ### C `int` lemmas -/

theorem c_int.ext (a b : c_int) (h : a.val = b.val) : a = b := by
  cases a; cases b; cases h; rfl

theorem c_int.val_one : (1 : c_int).val = 1 := by decide

theorem c_int.val_zero : (0 : c_int).val = 0 := by decide

theorem c_int.val_sub (a b : c_int) :
    (a - b).val = (a.val - b.val + 2147483648) % 4294967296 - 2147483648 := rfl

theorem c_int.val_add (a b : c_int) :
    (a + b).val = (a.val + b.val + 2147483648) % 4294967296 - 2147483648 := rfl

theorem c_int.sub_one_add_one (x : c_int) : x - 1 + 1 = x := by
  apply c_int.ext
  have hr := x.range
  rw [c_int.val_add, c_int.val_sub, c_int.val_one]
  omega

theorem c_int.val_sub_one (x : c_int) :
    (x - 1).val = if x.val = -2147483648 then 2147483647 else x.val - 1 := by
  have hr := x.range
  rw [c_int.val_sub, c_int.val_one]
  split_ifs <;> omega

/-! ### Admission lemmas -/

theorem create_session_quota_sockets (w : World) (comport sock : Nat)
    (session : olsr_stream_session) :
    (create_session_quota w comport sock session).1.sockets =
      Function.update w.sockets comport
        { w.sockets comport with
          config := { (w.sockets comport).config with
            allowed_sessions := (w.sockets comport).config.allowed_sessions - 1 } } := by
  simp only [create_session_quota]
  split
  · rfl
  · split <;> rfl

theorem create_session_quota_frame (w : World) (comport sock : Nat)
    (session : olsr_stream_session) :
    (create_session_quota w comport sock session).1.sessions = w.sessions ∧
    (create_session_quota w comport sock session).1.timers = w.timers ∧
    (create_session_quota w comport sock session).1.olsr_stream_head = w.olsr_stream_head := by
  simp only [create_session_quota]
  split
  · exact ⟨rfl, rfl, rfl⟩
  · split <;> exact ⟨rfl, rfl, rfl⟩

theorem create_session_quota_state (w : World) (comport sock : Nat)
    (session : olsr_stream_session) :
    (create_session_quota w comport sock session).2.state =
      (if (w.sockets comport).config.allowed_sessions > 0 then STREAM_SESSION_ACTIVE
       else STREAM_SESSION_SEND_AND_QUIT) ∧
    (create_session_quota w comport sock session).2.comport = session.comport := by
  simp only [create_session_quota]
  split
  · exact ⟨rfl, rfl⟩
  · split <;> exact ⟨rfl, rfl⟩

theorem create_session_timeout_frame (w : World) (comport sock : Nat) :
    (create_session_timeout w comport sock).sockets = w.sockets ∧
    (create_session_timeout w comport sock).sessions = w.sessions ∧
    (create_session_timeout w comport sock).olsr_stream_head = w.olsr_stream_head ∧
    (create_session_timeout w comport sock).log = w.log := by
  simp only [create_session_timeout]
  split <;> exact ⟨rfl, rfl, rfl, rfl⟩

theorem create_session_init_config (w : World) (comport sock : Nat)
    (session : olsr_stream_session) :
    ((create_session_init w comport sock session).1.sockets comport).config =
      (w.sockets comport).config ∧
    (create_session_init w comport sock session).1.timers = w.timers ∧
    (create_session_init w comport sock session).1.olsr_stream_head = w.olsr_stream_head := by
  simp only [create_session_init, create_session_link]
  split
  · split <;> simp
  · simp

theorem create_session_init_some (w : World) (comport sock : Nat)
    (session : olsr_stream_session) (fd : Nat)
    (h : (create_session_init w comport sock session).2 = some fd) :
    fd = sock ∧
    (create_session_init w comport sock session).1.sessions =
      Function.update w.sessions sock (some session) ∧
    ((create_session_init w comport sock session).1.sockets comport).session =
      (w.sockets comport).session ++ [sock] := by
  simp only [create_session_init, create_session_link] at h ⊢
  split at h
  · split at h
    · simp at h
    · rename_i f hf hz
      simp at h
      simp [hf, hz, h, list_add_tail]
  · rename_i hf
    simp at h
    simp [hf, h, list_add_tail]

theorem create_session_init_none (w : World) (comport sock : Nat)
    (session : olsr_stream_session)
    (h : (create_session_init w comport sock session).2 = none) :
    (create_session_init w comport sock session).1.sessions = w.sessions ∧
    (create_session_init w comport sock session).1.sockets = w.sockets ∧
    (create_session_init w comport sock session).1.log = w.log ++ [Event.init sock] := by
  simp only [create_session_init, create_session_link] at h ⊢
  split at h
  · split at h
    · rename_i f hf hz
      simp [hf, hz]
    · simp at h
  · simp at h

theorem create_session_init_ok (w : World) (comport sock : Nat)
    (session : olsr_stream_session)
    (h : ∀ f, (w.sockets comport).config.init = some f → f session = 0) :
    (create_session_init w comport sock session).2 = some sock := by
  simp only [create_session_init, create_session_link]
  split
  · rename_i f hf
    simp [h f hf]
  · rfl

theorem create_session_quota_out_log (w : World) (comport sock : Nat)
    (session : olsr_stream_session) :
    (create_session_quota w comport sock session).2.out =
      (if (w.sockets comport).config.allowed_sessions > 0 then session.out
       else session.out ++
        (match (w.sockets comport).config.create_error with
          | some f => f session STREAM_SERVICE_UNAVAILABLE
          | none => [])) ∧
    (create_session_quota w comport sock session).1.log =
      w.log ++
        (if (w.sockets comport).config.allowed_sessions > 0 then []
         else match (w.sockets comport).config.create_error with
          | some _ => [Event.create_error sock STREAM_SERVICE_UNAVAILABLE]
          | none => []) := by
  simp only [create_session_quota]
  split
  · simp
  · split <;> simp

theorem create_session_init_log (w : World) (comport sock : Nat)
    (session : olsr_stream_session) :
    (create_session_init w comport sock session).1.log = w.log ∨
    (create_session_init w comport sock session).1.log = w.log ++ [Event.init sock] := by
  simp only [create_session_init, create_session_link]
  split
  · split <;> exact Or.inr rfl
  · exact Or.inl rfl

theorem olsr_stream_close_spec (w : World) (fd : Nat) (s : olsr_stream_session)
    (h : w.sessions fd = some s) :
    (olsr_stream_close w fd).sessions = Function.update w.sessions fd none ∧
    ((olsr_stream_close w fd).sockets s.comport).config =
      { (w.sockets s.comport).config with
        allowed_sessions := (w.sockets s.comport).config.allowed_sessions + 1 } ∧
    ((olsr_stream_close w fd).sockets s.comport).session =
      list_remove (w.sockets s.comport).session fd ∧
    (olsr_stream_close w fd).timers = w.timers ∧
    (olsr_stream_close w fd).olsr_stream_head = w.olsr_stream_head := by
  simp [olsr_stream_close, h]

theorem create_session_ok_spec (w : World) (comport sock : Nat) (remote_addr : netaddr)
    (h_init : ∀ f, (w.sockets comport).config.init = some f → ∀ s, f s = 0) :
    (_create_session w comport sock remote_addr create_ok).2 = some sock ∧
    (∃ s, s.comport = comport ∧
      s.state = (if (w.sockets comport).config.allowed_sessions > 0 then STREAM_SESSION_ACTIVE
        else STREAM_SESSION_SEND_AND_QUIT) ∧
      (_create_session w comport sock remote_addr create_ok).1.sessions =
        Function.update w.sessions sock (some s)) ∧
    ((_create_session w comport sock remote_addr create_ok).1.sockets comport).config =
      { (w.sockets comport).config with
        allowed_sessions := (w.sockets comport).config.allowed_sessions - 1 } := by
  simp only [_create_session, create_ok, Bool.false_eq_true, if_false]
  have hc : (create_session_alloc w comport sock remote_addr).comport = comport := rfl
  generalize create_session_alloc w comport sock remote_addr = s0 at hc ⊢
  have hadm := create_session_quota_sockets
    { w with log := w.log ++ [Event.olsr_socket_add sock] } comport sock s0
  have hfr := create_session_quota_frame
    { w with log := w.log ++ [Event.olsr_socket_add sock] } comport sock s0
  have hst := create_session_quota_state
    { w with log := w.log ++ [Event.olsr_socket_add sock] } comport sock s0
  generalize create_session_quota
    { w with log := w.log ++ [Event.olsr_socket_add sock] } comport sock s0 = r at hadm hfr hst ⊢
  have htm := create_session_timeout_frame r.1 comport sock
  generalize create_session_timeout r.1 comport sock = w2 at htm ⊢
  have hok := create_session_init_ok w2 comport sock r.2
    (by
      intro f hf
      rw [htm.1, hadm] at hf
      simp at hf
      exact h_init f hf _)
  refine ⟨hok, ?_, ?_⟩
  · obtain ⟨-, hs, -⟩ := create_session_init_some _ _ _ _ _ hok
    refine ⟨r.2, ?_, hst.1, ?_⟩
    · rw [hst.2, hc]
    · rw [hs, htm.2.1, hfr.1]
  · rw [(create_session_init_config _ _ _ _).1, htm.1, hadm]
    simp

/-! ### Handler lemmas -/

theorem parse_connection_sessions (w : World) (fd : Nat) (flags : olsr_sockethandler_flags)
    (o : parse_outcome) (s : olsr_stream_session) (h : w.sessions fd = some s) :
    (_parse_connection w fd flags o).sessions fd =
      (if (parse_connection_connect s flags o).wait_for_connect then
        some (parse_connection_connect s flags o)
      else if (parse_connection_body w fd (parse_connection_connect s flags o)
          (w.sockets s.comport).config flags o).2.state = STREAM_SESSION_CLEANUP then none
      else some (parse_connection_body w fd (parse_connection_connect s flags o)
          (w.sockets s.comport).config flags o).2) := by
  simp only [_parse_connection, h]
  split
  · simp
  · split
    · rw [(olsr_stream_close_spec _ fd _ (Function.update_same _ _ _)).1]
      simp
    · simp

theorem parse_connection_connect_frame (s : olsr_stream_session)
    (flags : olsr_sockethandler_flags) (o : parse_outcome) :
    (parse_connection_connect s flags o).in_ = s.in_ ∧
    (parse_connection_connect s flags o).out = s.out ∧
    (parse_connection_connect s flags o).scheduler_entry = s.scheduler_entry ∧
    (parse_connection_connect s flags o).comport = s.comport := by
  simp only [parse_connection_connect]
  split_ifs <;> exact ⟨rfl, rfl, rfl, rfl⟩

theorem parse_connection_connect_done (s : olsr_stream_session)
    (flags : olsr_sockethandler_flags) (o : parse_outcome)
    (h : (parse_connection_connect s flags o).wait_for_connect = false) :
    parse_connection_connect s flags o = { s with wait_for_connect := false } := by
  simp only [parse_connection_connect] at h ⊢
  split_ifs at h ⊢ <;> first | rfl | (cases s; simp_all)

theorem recv_result_take (r : recv_result) :
    r.buffer.take r.len.toNat = r.buffer := by
  cases r with
  | bytes ready =>
    simp [recv_result.len, recv_result.buffer]
    omega
  | error e => simp [recv_result.len, recv_result.buffer]

theorem parse_connection_recv_in (w : World) (fd : Nat) (s : olsr_stream_session)
    (cfg : olsr_stream_config) (flags : olsr_sockethandler_flags) (o : parse_outcome)
    (h : s.in_.length ≤ cfg.maximum_input_buffer) :
    (parse_connection_recv w fd s cfg flags o).2.in_.length ≤ cfg.maximum_input_buffer ∨
    ((parse_connection_recv w fd s cfg flags o).2.state = STREAM_SESSION_SEND_AND_QUIT ∧
      s.state = STREAM_SESSION_ACTIVE ∧ flags.OLSR_SOCKET_READ = true ∧
      (parse_connection_recv w fd s cfg flags o).2.in_ = s.in_ ++ o.recv.buffer) := by
  simp only [parse_connection_recv, recv_result_take]
  split_ifs with h1 h2 h3 h4 h5 h6
  · exact Or.inl h
  · split
    · exact Or.inr ⟨rfl, h1.1, h1.2, rfl⟩
    · exact Or.inr ⟨rfl, h1.1, h1.2, rfl⟩
  · exact Or.inl (not_lt.mp h4)
  · exact Or.inl h
  · exact Or.inl h
  · exact Or.inl h
  · exact Or.inl h

theorem parse_connection_recv_frame (w : World) (fd : Nat) (s : olsr_stream_session)
    (cfg : olsr_stream_config) (flags : olsr_sockethandler_flags) (o : parse_outcome) :
    (parse_connection_recv w fd s cfg flags o).2.scheduler_entry = s.scheduler_entry ∧
    (parse_connection_recv w fd s cfg flags o).2.comport = s.comport ∧
    (parse_connection_recv w fd s cfg flags o).2.wait_for_connect = s.wait_for_connect ∧
    (s.state ≠ STREAM_SESSION_ACTIVE →
      (parse_connection_recv w fd s cfg flags o) = (w, s)) := by
  simp only [parse_connection_recv]
  split_ifs with h1 h2 h3 h4 h5 h6 <;>
    try (first
      | exact ⟨rfl, rfl, rfl, fun _ => rfl⟩
      | exact ⟨rfl, rfl, rfl, fun hn => absurd h1.1 hn⟩)
  split <;> exact ⟨rfl, rfl, rfl, fun hn => absurd h1.1 hn⟩

theorem parse_connection_receive_frame (w : World) (fd : Nat) (s : olsr_stream_session)
    (cfg : olsr_stream_config) :
    (parse_connection_receive w fd s cfg).2.scheduler_entry = s.scheduler_entry ∧
    (parse_connection_receive w fd s cfg).2.comport = s.comport ∧
    (parse_connection_receive w fd s cfg).2.wait_for_connect = s.wait_for_connect ∧
    (s.state ≠ STREAM_SESSION_ACTIVE → (parse_connection_receive w fd s cfg) = (w, s)) := by
  simp only [parse_connection_receive]
  split
  · split_ifs with h1
    · exact ⟨rfl, rfl, rfl, fun hn => absurd h1.1 hn⟩
    · exact ⟨rfl, rfl, rfl, fun _ => rfl⟩
  · exact ⟨rfl, rfl, rfl, fun _ => rfl⟩

theorem parse_connection_receive_in (w : World) (fd : Nat) (s : olsr_stream_session)
    (cfg : olsr_stream_config)
    (h_cb : ∀ f, cfg.receive_data = some f → ∀ t, (f t).1.length ≤ t.in_.length) :
    (parse_connection_receive w fd s cfg).2.in_.length ≤ s.in_.length := by
  simp only [parse_connection_receive]
  split
  · rename_i f hf
    split_ifs with h1
    · exact h_cb f hf s
    · exact le_refl _
  · exact le_refl _

theorem parse_connection_send_frame (w : World) (fd : Nat) (s : olsr_stream_session)
    (cfg : olsr_stream_config) (flags : olsr_sockethandler_flags) (o : parse_outcome) :
    (parse_connection_send w fd s cfg flags o).2.in_ = s.in_ ∧
    (parse_connection_send w fd s cfg flags o).2.comport = s.comport ∧
    (parse_connection_send w fd s cfg flags o).2.wait_for_connect = s.wait_for_connect ∧
    ((parse_connection_send w fd s cfg flags o).2.state = s.state ∨
      (parse_connection_send w fd s cfg flags o).2.state = STREAM_SESSION_CLEANUP) := by
  simp only [parse_connection_send, olsr_stream_flush]
  split_ifs <;> simp

theorem parse_connection_drain_frame (s : olsr_stream_session) :
    (parse_connection_drain s).in_ = s.in_ ∧
    (parse_connection_drain s).out = s.out ∧
    (parse_connection_drain s).comport = s.comport ∧
    (parse_connection_drain s).wait_for_connect = s.wait_for_connect ∧
    ((parse_connection_drain s).state = STREAM_SESSION_SEND_AND_QUIT →
      s.state = STREAM_SESSION_SEND_AND_QUIT ∧ s.out ≠ []) ∧
    ((parse_connection_drain s).state = s.state ∨
      (parse_connection_drain s).state = STREAM_SESSION_CLEANUP) := by
  simp only [parse_connection_drain, olsr_socket_disable_write]
  split_ifs with h1 h2
  · simp
  · simp [h2]
  · refine ⟨rfl, rfl, rfl, rfl, fun hs => ⟨hs, ?_⟩, Or.inl rfl⟩
    intro he
    exact h1 (by simp [he])

theorem parse_connection_connect_idle (s : olsr_stream_session)
    (flags : olsr_sockethandler_flags) (o : parse_outcome)
    (h : s.wait_for_connect = false) :
    parse_connection_connect s flags o = s := by
  simp [parse_connection_connect, h]

theorem parse_connection_body_quit (w : World) (fd : Nat) (s : olsr_stream_session)
    (cfg : olsr_stream_config) (flags : olsr_sockethandler_flags) (o : parse_outcome)
    (h : s.state ≠ STREAM_SESSION_ACTIVE) :
    (parse_connection_body w fd s cfg flags o).2 =
      parse_connection_drain (parse_connection_send w fd s cfg flags o).2 := by
  simp only [parse_connection_body]
  rw [(parse_connection_recv_frame w fd s cfg flags o).2.2.2 h]
  rw [(parse_connection_receive_frame w fd s cfg).2.2.2 h]

theorem parse_connection_tail_write (w : World) (fd : Nat) (s : olsr_stream_session)
    (cfg : olsr_stream_config) (flags : olsr_sockethandler_flags) (o : parse_outcome)
    (h_flags : flags.OLSR_SOCKET_WRITE = true → s.scheduler_entry.event_write = true)
    (h_alive : (parse_connection_drain (parse_connection_send w fd s cfg flags o).2).state
      ≠ STREAM_SESSION_CLEANUP) :
    ((parse_connection_drain
        (parse_connection_send w fd s cfg flags o).2).scheduler_entry.event_write = true ↔
      (parse_connection_drain (parse_connection_send w fd s cfg flags o).2).out ≠ []) := by
  simp only [parse_connection_send, olsr_stream_flush, olsr_socket_enable_write] at h_alive ⊢
  split_ifs at h_alive ⊢ with h1 h2 h3 h4
  all_goals simp only [parse_connection_drain, olsr_socket_disable_write] at h_alive ⊢
  all_goals split_ifs at h_alive ⊢ with h5 h6
  all_goals simp_all

/-! ### Event-sequence lemmas -/

theorem parse_connection_connect_state (s : olsr_stream_session)
    (flags : olsr_sockethandler_flags) (o : parse_outcome)
    (h : s.state ≠ STREAM_SESSION_ACTIVE) :
    (parse_connection_connect s flags o).state ≠ STREAM_SESSION_ACTIVE := by
  simp only [parse_connection_connect]
  split_ifs <;> first | exact h | (intro hc; cases hc)

theorem parse_connection_recv_log (w : World) (fd : Nat) (s : olsr_stream_session)
    (cfg : olsr_stream_config) (flags : olsr_sockethandler_flags) (o : parse_outcome) :
    (parse_connection_recv w fd s cfg flags o).1.log = w.log ∨
    ((parse_connection_recv w fd s cfg flags o).1.log =
        w.log ++ [Event.create_error fd STREAM_REQUEST_TOO_LARGE] ∧
      (parse_connection_recv w fd s cfg flags o).2.state = STREAM_SESSION_SEND_AND_QUIT) := by
  simp only [parse_connection_recv, olsr_stream_set_timeout]
  split_ifs <;> try exact Or.inl rfl
  split
  · exact Or.inr ⟨rfl, rfl⟩
  · exact Or.inl rfl

theorem parse_connection_receive_log (w : World) (fd : Nat) (s : olsr_stream_session)
    (cfg : olsr_stream_config) :
    (parse_connection_receive w fd s cfg).1.log = w.log ∨
    (parse_connection_receive w fd s cfg).1.log = w.log ++ [Event.receive_data fd] := by
  simp only [parse_connection_receive]
  split
  · split_ifs
    · exact Or.inr rfl
    · exact Or.inl rfl
  · exact Or.inl rfl

theorem parse_connection_send_log (w : World) (fd : Nat) (s : olsr_stream_session)
    (cfg : olsr_stream_config) (flags : olsr_sockethandler_flags) (o : parse_outcome) :
    (parse_connection_send w fd s cfg flags o).1.log = w.log := by
  simp only [parse_connection_send, olsr_stream_set_timeout]
  split_ifs <;> rfl

theorem parse_connection_body_count (w : World) (fd : Nat) (s : olsr_stream_session)
    (cfg : olsr_stream_config) (flags : olsr_sockethandler_flags) (o : parse_outcome) :
    (parse_connection_body w fd s cfg flags o).1.log.count
        (Event.create_error fd STREAM_REQUEST_TOO_LARGE) =
      w.log.count (Event.create_error fd STREAM_REQUEST_TOO_LARGE) ∨
    ((parse_connection_body w fd s cfg flags o).1.log.count
        (Event.create_error fd STREAM_REQUEST_TOO_LARGE) =
      w.log.count (Event.create_error fd STREAM_REQUEST_TOO_LARGE) + 1 ∧
     (parse_connection_body w fd s cfg flags o).2.state ≠ STREAM_SESSION_ACTIVE) := by
  simp only [parse_connection_body]
  have h1 := parse_connection_recv_log w fd s cfg flags o
  generalize parse_connection_recv w fd s cfg flags o = r1 at h1 ⊢
  have h2 := parse_connection_receive_log r1.1 fd r1.2 cfg
  have h2f := (parse_connection_receive_frame r1.1 fd r1.2 cfg).2.2.2
  generalize parse_connection_receive r1.1 fd r1.2 cfg = r2 at h2 h2f ⊢
  have h3 := parse_connection_send_log r2.1 fd r2.2 cfg flags o
  have h3f := (parse_connection_send_frame r2.1 fd r2.2 cfg flags o).2.2.2
  generalize parse_connection_send r2.1 fd r2.2 cfg flags o = r3 at h3 h3f ⊢
  have h4 := (parse_connection_drain_frame r3.2).2.2.2.2.2
  generalize parse_connection_drain r3.2 = s4 at h4 ⊢
  rw [h3]
  have hrd : (r2.1.log).count (Event.create_error fd STREAM_REQUEST_TOO_LARGE) =
      (r1.1.log).count (Event.create_error fd STREAM_REQUEST_TOO_LARGE) := by
    rcases h2 with e | e
    · rw [e]
    · rw [e]; simp
  rw [hrd]
  rcases h1 with e | ⟨e, hst⟩
  · left; rw [e]
  · right
    refine ⟨by rw [e]; simp, ?_⟩
    have e2 := h2f (by rw [hst]; decide)
    subst e2
    have e3 : r3.2.state ≠ STREAM_SESSION_ACTIVE := by
      rcases h3f with e | e
      · rw [e, hst]; decide
      · rw [e]; decide
    rcases h4 with e | e
    · rw [e]; exact e3
    · rw [e]; decide

theorem olsr_stream_close_log_count (w : World) (fd : Nat) (e : Event)
    (he : (∃ k c, e = Event.create_error k c) ∨ (∃ k, e = Event.receive_data k)) :
    (olsr_stream_close w fd).log.count e = w.log.count e := by
  simp only [olsr_stream_close]
  split
  · rfl
  · rcases he with ⟨k, c, rfl⟩ | ⟨k, rfl⟩ <;> split_ifs <;> simp [List.count_cons]

theorem parse_connection_log_count (w : World) (fd : Nat) (flags : olsr_sockethandler_flags)
    (o : parse_outcome) (s : olsr_stream_session) (h : w.sessions fd = some s) (e : Event)
    (he : (∃ k c, e = Event.create_error k c) ∨ (∃ k, e = Event.receive_data k)) :
    (_parse_connection w fd flags o).log.count e =
      (if (parse_connection_connect s flags o).wait_for_connect then w.log.count e
       else (parse_connection_body w fd (parse_connection_connect s flags o)
          (w.sockets s.comport).config flags o).1.log.count e) := by
  simp only [_parse_connection, h]
  split
  · rfl
  · split
    · rw [olsr_stream_close_log_count _ _ _ he]
    · rfl

theorem parse_connection_inactive (w : World) (fd : Nat) (flags : olsr_sockethandler_flags)
    (o : parse_outcome)
    (h : ∀ s, w.sessions fd = some s → s.state ≠ STREAM_SESSION_ACTIVE) :
    (∀ s', (_parse_connection w fd flags o).sessions fd = some s' →
      s'.state ≠ STREAM_SESSION_ACTIVE ∧ ∀ s, w.sessions fd = some s → s'.in_ = s.in_) ∧
    (_parse_connection w fd flags o).log.count
        (Event.create_error fd STREAM_REQUEST_TOO_LARGE) =
      w.log.count (Event.create_error fd STREAM_REQUEST_TOO_LARGE) ∧
    (_parse_connection w fd flags o).log.count (Event.receive_data fd) =
      w.log.count (Event.receive_data fd) := by
  cases hs : w.sessions fd with
  | none =>
    have hw : _parse_connection w fd flags o = w := by simp [_parse_connection, hs]
    rw [hw]
    refine ⟨fun s' h' => ?_, rfl, rfl⟩
    rw [hs] at h'
    cases h'
  | some s =>
    have hst := h s hs
    have hc := parse_connection_connect_state s flags o hst
    have hcf := parse_connection_connect_frame s flags o
    have hbody : parse_connection_body w fd (parse_connection_connect s flags o)
        (w.sockets s.comport).config flags o =
        ((parse_connection_send w fd (parse_connection_connect s flags o)
            (w.sockets s.comport).config flags o).1,
          parse_connection_drain (parse_connection_send w fd (parse_connection_connect s flags o)
            (w.sockets s.comport).config flags o).2) := by
      simp only [parse_connection_body]
      rw [(parse_connection_recv_frame w fd _ _ flags o).2.2.2 hc]
      rw [(parse_connection_receive_frame w fd _ _).2.2.2 hc]
    refine ⟨fun s' h' => ?_, ?_, ?_⟩
    · rw [parse_connection_sessions w fd flags o s hs] at h'
      split_ifs at h' with hw hcl
      · cases h'
        exact ⟨hc, fun t ht => by cases ht; exact hcf.1⟩
      · cases h'
        rw [hbody]
        have h3 := parse_connection_send_frame w fd (parse_connection_connect s flags o)
          (w.sockets s.comport).config flags o
        have h4 := parse_connection_drain_frame (parse_connection_send w fd
          (parse_connection_connect s flags o) (w.sockets s.comport).config flags o).2
        refine ⟨?_, fun t ht => by cases ht; rw [h4.1, h3.1, hcf.1]⟩
        rcases h4.2.2.2.2.2 with e | e
        · rw [e]
          rcases h3.2.2.2 with e3 | e3
          · rw [e3]; exact hc
          · rw [e3]; intro hx; cases hx
        · rw [e]; intro hx; cases hx
    · rw [parse_connection_log_count w fd flags o s hs _ (Or.inl ⟨_, _, rfl⟩), hbody,
        parse_connection_send_log]
      simp
    · rw [parse_connection_log_count w fd flags o s hs _ (Or.inr ⟨_, rfl⟩), hbody,
        parse_connection_send_log]
      simp

theorem parse_connection_too_large_step (w : World) (fd : Nat)
    (flags : olsr_sockethandler_flags) (o : parse_outcome) :
    (_parse_connection w fd flags o).log.count
        (Event.create_error fd STREAM_REQUEST_TOO_LARGE) =
      w.log.count (Event.create_error fd STREAM_REQUEST_TOO_LARGE) ∨
    ((_parse_connection w fd flags o).log.count
        (Event.create_error fd STREAM_REQUEST_TOO_LARGE) =
      w.log.count (Event.create_error fd STREAM_REQUEST_TOO_LARGE) + 1 ∧
     ∀ s', (_parse_connection w fd flags o).sessions fd = some s' →
      s'.state ≠ STREAM_SESSION_ACTIVE) := by
  cases hs : w.sessions fd with
  | none =>
    have hw : _parse_connection w fd flags o = w := by simp [_parse_connection, hs]
    rw [hw]
    exact Or.inl rfl
  | some s =>
    rw [parse_connection_log_count w fd flags o s hs _ (Or.inl ⟨_, _, rfl⟩),
      parse_connection_sessions w fd flags o s hs]
    split_ifs with hw hcl
    · exact Or.inl rfl
    · rcases parse_connection_body_count w fd (parse_connection_connect s flags o)
        (w.sockets s.comport).config flags o with e | ⟨e, -⟩
      · exact Or.inl e
      · exact Or.inr ⟨e, fun s' h' => by cases h'⟩
    · rcases parse_connection_body_count w fd (parse_connection_connect s flags o)
        (w.sockets s.comport).config flags o with e | ⟨e, hne⟩
      · exact Or.inl e
      · exact Or.inr ⟨e, fun s' h' => by cases h'; exact hne⟩

theorem parse_connection_run_freed (fd : Nat)
    (evs : List (olsr_sockethandler_flags × parse_outcome)) :
    ∀ w : World, w.sessions fd = none → parse_connection_run w fd evs = w := by
  induction evs with
  | nil => intro w _; rfl
  | cons ev rest ih =>
    intro w h
    have hw : _parse_connection w fd ev.1 ev.2 = w := by simp [_parse_connection, h]
    simp only [parse_connection_run, hw]
    exact ih w h

theorem parse_connection_run_inactive (fd : Nat)
    (evs : List (olsr_sockethandler_flags × parse_outcome)) :
    ∀ w : World, (∀ s, w.sessions fd = some s → s.state ≠ STREAM_SESSION_ACTIVE) →
      (∀ s', (parse_connection_run w fd evs).sessions fd = some s' →
        s'.state ≠ STREAM_SESSION_ACTIVE ∧ ∀ s, w.sessions fd = some s → s'.in_ = s.in_) ∧
      (parse_connection_run w fd evs).log.count
          (Event.create_error fd STREAM_REQUEST_TOO_LARGE) =
        w.log.count (Event.create_error fd STREAM_REQUEST_TOO_LARGE) ∧
      (parse_connection_run w fd evs).log.count (Event.receive_data fd) =
        w.log.count (Event.receive_data fd) := by
  induction evs with
  | nil =>
    intro w h
    exact ⟨fun s' h' => ⟨h s' h', fun s hs => by
      simp only [parse_connection_run] at h'
      rw [hs] at h'
      cases h'
      rfl⟩, rfl, rfl⟩
  | cons ev rest ih =>
    intro w h
    obtain ⟨hA, hE, hR⟩ := parse_connection_inactive w fd ev.1 ev.2 h
    obtain ⟨iA, iE, iR⟩ := ih (_parse_connection w fd ev.1 ev.2) (fun s hs => (hA s hs).1)
    simp only [parse_connection_run]
    refine ⟨fun s' h' => ⟨(iA s' h').1, fun s hs => ?_⟩, iE.trans hE, iR.trans hR⟩
    cases h1 : (_parse_connection w fd ev.1 ev.2).sessions fd with
    | none =>
      rw [parse_connection_run_freed fd rest _ h1, h1] at h'
      cases h'
    | some s1 =>
      rw [(iA s' h').2 s1 h1]
      exact (hA s1 h1).2 s hs

theorem parse_connection_run_count (fd : Nat)
    (evs : List (olsr_sockethandler_flags × parse_outcome)) :
    ∀ w : World,
      (parse_connection_run w fd evs).log.count
          (Event.create_error fd STREAM_REQUEST_TOO_LARGE) ≤
        w.log.count (Event.create_error fd STREAM_REQUEST_TOO_LARGE) + 1 := by
  induction evs with
  | nil => intro w; exact Nat.le_succ _
  | cons ev rest ih =>
    intro w
    simp only [parse_connection_run]
    rcases parse_connection_too_large_step w fd ev.1 ev.2 with e | ⟨e, hin⟩
    · rw [← e]
      exact ih _
    · rw [(parse_connection_run_inactive fd rest _ hin).2.1, e]

theorem parse_connection_recv_overflow (w : World) (fd : Nat) (s : olsr_stream_session)
    (cfg : olsr_stream_config) (flags : olsr_sockethandler_flags) (o : parse_outcome)
    (h_state : s.state = STREAM_SESSION_ACTIVE) (h_read : flags.OLSR_SOCKET_READ = true)
    (h_len : 0 < o.recv.len) (h_mem : o.abuf_memcpy_fail = false)
    (h_over : cfg.maximum_input_buffer < (s.in_ ++ o.recv.buffer).length) :
    (parse_connection_recv w fd s cfg flags o).2.state = STREAM_SESSION_SEND_AND_QUIT ∧
    (parse_connection_recv w fd s cfg flags o).2.in_ = s.in_ ++ o.recv.buffer ∧
    (parse_connection_recv w fd s cfg flags o).2.out =
      s.out ++ (match cfg.create_error with
        | some f => f { s with in_ := s.in_ ++ o.recv.buffer } STREAM_REQUEST_TOO_LARGE
        | none => []) ∧
    (parse_connection_recv w fd s cfg flags o).1.log =
      w.log ++ (match cfg.create_error with
        | some _ => [Event.create_error fd STREAM_REQUEST_TOO_LARGE]
        | none => []) := by
  simp only [parse_connection_recv, recv_result_take, h_state, h_read, h_len, h_mem,
    true_and, if_true, gt_iff_lt, Bool.false_eq_true, if_false, h_over]
  split <;> simp

/-! ### Managed endpoint lemmas -/

theorem olsr_stream_close_local_socket (w : World) (fd a : Nat) :
    ((olsr_stream_close w fd).sockets a).local_socket = (w.sockets a).local_socket := by
  simp only [olsr_stream_close]
  split
  · rfl
  · rename_i session _
    by_cases ha : a = session.comport
    · subst ha; simp
    · simp [Function.update_noteq ha]

theorem olsr_stream_remove_loop_local_socket (fuel : Nat) (comport a : Nat) :
    ∀ w : World, ((olsr_stream_remove_loop fuel w comport).sockets a).local_socket =
      (w.sockets a).local_socket := by
  induction fuel with
  | zero => intro w; rfl
  | succ n ih =>
    intro w
    simp only [olsr_stream_remove_loop]
    split
    · rfl
    · rw [ih, olsr_stream_close_local_socket]

theorem olsr_stream_remove_local_socket (w : World) (comport a : Nat) :
    ((olsr_stream_remove w comport).sockets a).local_socket = (w.sockets a).local_socket := by
  simp only [olsr_stream_remove]
  split
  · split
    · rfl
    · split <;> simp [olsr_stream_remove_loop_local_socket]
  · rfl

theorem olsr_stream_add_local_socket (w : World) (comport : Nat) (loc : netaddr_socket)
    (o : add_outcome) (h : (olsr_stream_add w comport loc o).2 = 0) :
    ((olsr_stream_add w comport loc o).1.sockets comport).local_socket = loc ∧
    ∀ a, a ≠ comport → ((olsr_stream_add w comport loc o).1.sockets a).local_socket =
      (w.sockets a).local_socket := by
  simp only [olsr_stream_add] at h ⊢
  split_ifs at h ⊢ <;> try (simp at h)
  refine ⟨by simp, fun a ha => ?_⟩
  simp [Function.update_noteq ha]

theorem apply_managed_socket_ok (w : World) (managed : olsr_stream_managed) (stream : Nat)
    (bindto : netaddr) (port : Nat)
    (netaddr_socket_init : netaddr → Nat → Option netaddr_socket) (o : add_outcome)
    (h : (_apply_managed_socket w managed stream bindto port netaddr_socket_init o).2 = 0) :
    netaddr_socket_init bindto port =
      some ((_apply_managed_socket w managed stream bindto port
        netaddr_socket_init o).1.sockets stream).local_socket ∧
    ∀ a, a ≠ stream →
      ((_apply_managed_socket w managed stream bindto port
        netaddr_socket_init o).1.sockets a).local_socket = (w.sockets a).local_socket := by
  cases hsock : netaddr_socket_init bindto port with
  | none => simp [_apply_managed_socket, hsock] at h
  | some sock =>
    simp only [_apply_managed_socket, hsock] at h ⊢
    split_ifs at h ⊢ with heq hadd
    · exact ⟨by rw [← heq], fun _ _ => rfl⟩
    · simp at h
    all_goals
      have hz : (olsr_stream_add (olsr_stream_remove w stream) stream sock o).2 = 0 := by
        simpa using hadd
      obtain ⟨h1, h2⟩ := olsr_stream_add_local_socket _ stream sock o hz
      refine ⟨by simp [h1], fun a ha => ?_⟩
      simp [Function.update_noteq ha, h2 a ha, olsr_stream_remove_local_socket]

theorem apply_managed_socket_same (w : World) (managed : olsr_stream_managed) (stream : Nat)
    (bindto : netaddr) (port : Nat)
    (netaddr_socket_init : netaddr → Nat → Option netaddr_socket) (o : add_outcome)
    (h : netaddr_socket_init bindto port = some (w.sockets stream).local_socket) :
    _apply_managed_socket w managed stream bindto port netaddr_socket_init o = (w, 0) := by
  simp [_apply_managed_socket, h]

/-- Re-applying the same configuration with both families enabled: when the
first `olsr_stream_apply_managed` returned success, the second one finds both
desired addresses equal to the listeners' local addresses and returns the
world unchanged.  (The two embedded listeners are distinct structs.) -/
theorem apply_managed_twice_both_enabled (w : World) (managed : olsr_stream_managed)
    (config : olsr_stream_managed_config) (o o2 : managed_outcome)
    (h4 : o.ipv4 = true) (h6 : o.ipv6 = true)
    (h4b : o2.ipv4 = true) (h6b : o2.ipv6 = true)
    (h_init : o2.netaddr_socket_init = o.netaddr_socket_init)
    (h_ne : managed.socket_v4 ≠ managed.socket_v6)
    (h_ok : (olsr_stream_apply_managed w managed config o).2.2 = 0) :
    (olsr_stream_apply_managed (olsr_stream_apply_managed w managed config o).1
        (olsr_stream_apply_managed w managed config o).2.1 config o2).1 =
      (olsr_stream_apply_managed w managed config o).1 ∧
    (olsr_stream_apply_managed (olsr_stream_apply_managed w managed config o).1
        (olsr_stream_apply_managed w managed config o).2.1 config o2).2.2 = 0 := by
  simp only [olsr_stream_apply_managed, h4, h6, h4b, h6b, h_init, if_true] at h_ok ⊢
  split_ifs at h_ok with hr4 hr6
  · simp at h_ok
  · simp at h_ok
  · have e4 := apply_managed_socket_ok _ _ _ _ _ _ _ (not_not.mp hr4)
    have e6 := apply_managed_socket_ok _ _ _ _ _ _ _ (not_not.mp hr6)
    simp only [if_neg hr4, if_neg hr6]
    have s4 : o.netaddr_socket_init config.bindto_v4 config.port = some
        (((_apply_managed_socket
          (_apply_managed_socket w { managed with acl := config.acl } managed.socket_v4
            config.bindto_v4 config.port o.netaddr_socket_init o.add_v4).1
          { managed with acl := config.acl } managed.socket_v6 config.bindto_v6 config.port
          o.netaddr_socket_init o.add_v6).1.sockets managed.socket_v4).local_socket) := by
      rw [e6.2 _ h_ne]
      exact e4.1
    rw [apply_managed_socket_same _ _ _ _ _ _ _ s4]
    simp only [ne_eq, not_true_eq_false, if_false]
    rw [apply_managed_socket_same _ _ _ _ _ _ _ e6.1]
    simp

/-! ### Claims -/

/-- C1 (code defect): with listener 1 (owning session 5) already registered,
a successful `olsr_stream_add` of listener 2 followed by `olsr_stream_remove`
of listener 2 does not give back the registry `[1]`: listener 2 stays linked,
listener 1 is unlinked instead, and its session 5 and its listening fd 3 are
closed. -/
theorem C1_remove_unlinks_first_listener :
    world_one_session.olsr_stream_head = [1] ∧
    (world_one_session.sockets 1).session = [5] ∧
    world_two_listeners.2 = 0 ∧
    world_two_listeners.1.olsr_stream_head = [1, 2] ∧
    (olsr_stream_remove world_two_listeners.1 2).olsr_stream_head = [2] ∧
    (olsr_stream_remove world_two_listeners.1 2).sessions 5 = none ∧
    ((olsr_stream_remove world_two_listeners.1 2).sockets 1).session = [] ∧
    Event.os_close 5 ∈ (olsr_stream_remove world_two_listeners.1 2).log ∧
    Event.os_close 3 ∈ (olsr_stream_remove world_two_listeners.1 2).log ∧
    Event.os_close 4 ∉ (olsr_stream_remove world_two_listeners.1 2).log := by
  decide

/-- C2 (code defect): a managed endpoint active on both families with one live
session on v4 is re-applied with only the v6 bind address changed.  The call
succeeds, yet the v4 listener (first in the registry) is the one unlinked and
its session 5 is closed, while the v6 listener stays linked. -/
theorem C2_apply_managed_disturbs_v4 :
    world_managed.2.2 = 0 ∧
    world_managed_session.olsr_stream_head = [1, 2] ∧
    (world_managed_session.sockets 1).session = [5] ∧
    (world_managed_session.sessions 5).isSome = true ∧
    world_managed_reapplied.2.2 = 0 ∧
    1 ∉ world_managed_reapplied.1.olsr_stream_head ∧
    2 ∈ world_managed_reapplied.1.olsr_stream_head ∧
    (world_managed_reapplied.1.sockets 1).session = [] ∧
    world_managed_reapplied.1.sessions 5 = none ∧
    Event.os_close 5 ∈ world_managed_reapplied.1.log ∧
    Event.os_close 3 ∈ world_managed_reapplied.1.log := by
  decide

/-- C3 (amended): when the calls before admission succeed and `init` is absent
or succeeds, `_create_session` returns the session and leaves
`allowed_sessions` one below its value before the call in both cases (in
`int` arithmetic: the value before minus one, `INT_MAX` when it was
`INT_MIN`).  When the value before was positive the session is `ACTIVE`,
nothing is queued and `create_error` is not called; when it was zero or less
the session is `SEND_AND_QUIT`, and `create_error(SERVICE_UNAVAILABLE)`, when
set, was called once on the fresh session and its bytes are the session's
`out`. -/
theorem C3_create_session_always_decrements (w : World) (comport sock : Nat)
    (remote_addr : netaddr)
    (h_init : ∀ f, (w.sockets comport).config.init = some f → ∀ s, f s = 0) :
    (_create_session w comport sock remote_addr create_ok).2 = some sock ∧
    ((_create_session w comport sock remote_addr create_ok).1.sockets
        comport).config.allowed_sessions
      = (w.sockets comport).config.allowed_sessions - 1 ∧
    ((_create_session w comport sock remote_addr create_ok).1.sockets
        comport).config.allowed_sessions.val
      = (if (w.sockets comport).config.allowed_sessions.val = -2147483648 then 2147483647
         else (w.sockets comport).config.allowed_sessions.val - 1) ∧
    (∃ s, (_create_session w comport sock remote_addr create_ok).1.sessions sock = some s ∧
      s.state = (if (w.sockets comport).config.allowed_sessions > 0
        then STREAM_SESSION_ACTIVE else STREAM_SESSION_SEND_AND_QUIT) ∧
      s.out = (if (w.sockets comport).config.allowed_sessions > 0 then []
        else match (w.sockets comport).config.create_error with
          | some f => f (create_session_alloc w comport sock remote_addr)
              STREAM_SERVICE_UNAVAILABLE
          | none => [])) ∧
    (_create_session w comport sock remote_addr create_ok).1.log.count
        (Event.create_error sock STREAM_SERVICE_UNAVAILABLE) =
      w.log.count (Event.create_error sock STREAM_SERVICE_UNAVAILABLE) +
        (if (w.sockets comport).config.allowed_sessions > 0 then 0
         else if (w.sockets comport).config.create_error.isSome then 1 else 0) := by
  obtain ⟨hr, -, hcfg⟩ := create_session_ok_spec w comport sock remote_addr h_init
  have hcfg1 := congrArg olsr_stream_config.allowed_sessions hcfg
  refine ⟨hr, hcfg1, by rw [hcfg1]; exact c_int.val_sub_one _, ?_, ?_⟩
  · simp only [_create_session, create_ok, Bool.false_eq_true, if_false] at hr ⊢
    obtain ⟨-, hs, -⟩ := create_session_init_some _ _ _ _ _ hr
    have hs1 := congrFun hs sock
    rw [Function.update_same] at hs1
    refine ⟨_, hs1, (create_session_quota_state _ _ _ _).1, ?_⟩
    rw [(create_session_quota_out_log _ _ _ _).1]
    split_ifs
    · rfl
    · rfl
  · simp only [_create_session, create_ok, Bool.false_eq_true, if_false]
    have hq := (create_session_quota_out_log
      { w with log := w.log ++ [Event.olsr_socket_add sock] } comport sock
      (create_session_alloc w comport sock remote_addr)).2
    generalize create_session_quota
      { w with log := w.log ++ [Event.olsr_socket_add sock] } comport sock
      (create_session_alloc w comport sock remote_addr) = r at hq ⊢
    have ht := (create_session_timeout_frame r.1 comport sock).2.2.2
    generalize create_session_timeout r.1 comport sock = w2 at ht ⊢
    have hcount : (create_session_init w2 comport sock r.2).1.log.count
        (Event.create_error sock STREAM_SERVICE_UNAVAILABLE) =
        w2.log.count (Event.create_error sock STREAM_SERVICE_UNAVAILABLE) := by
      rcases create_session_init_log w2 comport sock r.2 with e | e
      · rw [e]
      · rw [e]; simp
    rw [hcount, ht, hq]
    split_ifs with hpos hsome
    · simp
    · cases hce : (w.sockets comport).config.create_error with
      | none => rw [hce] at hsome; cases hsome
      | some f => simp
    · cases hce : (w.sockets comport).config.create_error with
      | none => simp
      | some f => rw [hce] at hsome; exact absurd rfl hsome

/-- C3 witness: the second arrival at the quota-one listener finds
`allowed_sessions = 0`; it is returned in `SEND_AND_QUIT` with the two bytes
queued by `create_error(SERVICE_UNAVAILABLE)`, that call is logged once, and
the counter is left at `-1`. -/
theorem C3_create_session_always_decrements_witness :
    (world_quota_used.sockets 1).config.allowed_sessions = 0 ∧
    (_create_session world_quota_used 1 6 peer create_ok).2 = some 6 ∧
    ((_create_session world_quota_used 1 6 peer create_ok).1.sockets
        1).config.allowed_sessions = 0 - 1 ∧
    (∃ s, (_create_session world_quota_used 1 6 peer create_ok).1.sessions 6 = some s ∧
      s.state = STREAM_SESSION_SEND_AND_QUIT ∧ s.out = [52, 48]) ∧
    (_create_session world_quota_used 1 6 peer create_ok).1.log.count
        (Event.create_error 6 STREAM_SERVICE_UNAVAILABLE) =
      world_quota_used.log.count (Event.create_error 6 STREAM_SERVICE_UNAVAILABLE) + 1 := by
  have h := C3_create_session_always_decrements world_quota_used 1 6 peer
    (fun f hf => by
      have hn : (world_quota_used.sockets 1).config.init = none := rfl
      rw [hn] at hf
      cases hf)
  have h0 : (world_quota_used.sockets 1).config.allowed_sessions = 0 := by decide
  have hnp : ¬ ((world_quota_used.sockets 1).config.allowed_sessions > 0) := by decide
  have hsome : (world_quota_used.sockets 1).config.create_error.isSome = true := rfl
  obtain ⟨hr, ha, -, ⟨s, hs, hst, hout⟩, hlog⟩ := h
  refine ⟨h0, hr, ?_, ⟨s, hs, ?_, ?_⟩, ?_⟩
  · rw [ha, h0]
  · rw [hst, if_neg hnp]
  · rw [hout, if_neg hnp]
    rfl
  · rw [hlog, if_neg hnp, if_pos hsome]

/-- C3 counterexample: with `allowed_sessions = 0` before the call, the value
after `_create_session` is `-1`, not `0`: the over-quota session (put in
`SEND_AND_QUIT`, `create_error` fired) is decremented for as well. -/
theorem C3_counterexample_over_quota_decrements :
    (world_quota_used.sockets 1).config.allowed_sessions = 0 ∧
    (world_quota_over.sockets 1).config.allowed_sessions = -1 ∧
    (world_quota_over.sockets 1).config.allowed_sessions ≠
      (world_quota_used.sockets 1).config.allowed_sessions ∧
    (world_quota_over.sessions 6).map (fun s => s.state) =
      some STREAM_SESSION_SEND_AND_QUIT ∧
    Event.create_error 6 STREAM_SERVICE_UNAVAILABLE ∈ world_quota_over.log := by
  decide

/-- C4: when the calls before admission succeed and `init` is absent or
succeeds, `_create_session` returns the session, and closing it with
`olsr_stream_close` puts `allowed_sessions` back to its starting value,
whatever that value was (so both for a session admitted as `ACTIVE` and for
one rejected into `SEND_AND_QUIT`).  The same holds for two sessions created
one after the other and then both closed, in either order. -/
theorem C4_close_restores_quota (w : World) (comport sock1 sock2 : Nat)
    (remote_addr : netaddr)
    (h_init : ∀ f, (w.sockets comport).config.init = some f → ∀ s, f s = 0)
    (h_ne : sock1 ≠ sock2) :
    (_create_session w comport sock1 remote_addr create_ok).2 = some sock1 ∧
    ((olsr_stream_close (_create_session w comport sock1 remote_addr create_ok).1
        sock1).sockets comport).config.allowed_sessions
      = (w.sockets comport).config.allowed_sessions ∧
    (_create_session (_create_session w comport sock1 remote_addr create_ok).1
        comport sock2 remote_addr create_ok).2 = some sock2 ∧
    ((olsr_stream_close (olsr_stream_close
        (_create_session (_create_session w comport sock1 remote_addr create_ok).1
          comport sock2 remote_addr create_ok).1 sock1) sock2).sockets
        comport).config.allowed_sessions
      = (w.sockets comport).config.allowed_sessions ∧
    ((olsr_stream_close (olsr_stream_close
        (_create_session (_create_session w comport sock1 remote_addr create_ok).1
          comport sock2 remote_addr create_ok).1 sock2) sock1).sockets
        comport).config.allowed_sessions
      = (w.sockets comport).config.allowed_sessions := by
  obtain ⟨hr1, ⟨s1, hc1, -, hs1⟩, hcfg1⟩ :=
    create_session_ok_spec w comport sock1 remote_addr h_init
  generalize _create_session w comport sock1 remote_addr create_ok = r1 at hr1 hs1 hcfg1 ⊢
  have h_init1 : ∀ f, (r1.1.sockets comport).config.init = some f → ∀ s, f s = 0 := by
    intro f hf
    rw [hcfg1] at hf
    exact h_init f hf
  obtain ⟨hr2, ⟨s2, hc2, -, hs2⟩, hcfg2⟩ :=
    create_session_ok_spec r1.1 comport sock2 remote_addr h_init1
  generalize _create_session r1.1 comport sock2 remote_addr create_ok = r2 at hr2 hs2 hcfg2 ⊢
  refine ⟨hr1, ?_, hr2, ?_, ?_⟩
  · have h1 : r1.1.sessions sock1 = some s1 := by rw [hs1]; simp
    have hcl := (olsr_stream_close_spec r1.1 sock1 s1 h1).2.1
    rw [hc1] at hcl
    rw [hcl, hcfg1]
    simp [c_int.sub_one_add_one]
  · have h1 : r2.1.sessions sock1 = some s1 := by
      rw [hs2, Function.update_noteq h_ne, hs1]; simp
    obtain ⟨hse, hcl, -⟩ := olsr_stream_close_spec r2.1 sock1 s1 h1
    rw [hc1] at hcl
    have h2 : (olsr_stream_close r2.1 sock1).sessions sock2 = some s2 := by
      rw [hse, Function.update_noteq (Ne.symm h_ne), hs2]; simp
    have hcl2 := (olsr_stream_close_spec _ sock2 s2 h2).2.1
    rw [hc2] at hcl2
    rw [hcl2, hcl, hcfg2, hcfg1]
    simp [c_int.sub_one_add_one]
  · have h2 : r2.1.sessions sock2 = some s2 := by rw [hs2]; simp
    obtain ⟨hse, hcl, -⟩ := olsr_stream_close_spec r2.1 sock2 s2 h2
    rw [hc2] at hcl
    have h1 : (olsr_stream_close r2.1 sock2).sessions sock1 = some s1 := by
      rw [hse, Function.update_noteq h_ne, hs2, Function.update_noteq h_ne, hs1]; simp
    have hcl1 := (olsr_stream_close_spec _ sock1 s1 h1).2.1
    rw [hc1] at hcl1
    rw [hcl1, hcl, hcfg2, hcfg1]
    simp [c_int.sub_one_add_one]

/-- C4 witness: `allowed_sessions = 1`, two sessions created (the first
`ACTIVE`, the second `SEND_AND_QUIT`), both closed: the quota is 1 again. -/
theorem C4_close_restores_quota_witness :
    (world_quota_one.sockets 1).config.allowed_sessions = 1 ∧
    (world_quota_over.sessions 5).map (fun s => s.state) = some STREAM_SESSION_ACTIVE ∧
    (world_quota_over.sessions 6).map (fun s => s.state) =
      some STREAM_SESSION_SEND_AND_QUIT ∧
    ((olsr_stream_close (olsr_stream_close world_quota_over 6) 5).sockets
        1).config.allowed_sessions = 1 :=
  ⟨by decide, by decide, by decide,
    (C4_close_restores_quota world_quota_one 1 5 6 peer
      (fun f hf => by
        have hn : (world_quota_one.sockets 1).config.init = none := rfl
        rw [hn] at hf
        cases hf)
      (by decide)).2.2.2.2⟩

/-- C5 (code defect): with an `init` callback that reports an error,
`_create_session` returns no session, never calls `cleanup` and leaves the
session list as it was, but `allowed_sessions` is left at 9 instead of its
prior 10, and the idle timer armed for the freed session stays armed. -/
theorem C5_init_error_leaks_quota :
    (world_init_fails.sockets 1).config.allowed_sessions = 10 ∧
    (_create_session world_init_fails 1 5 peer create_ok).2 = none ∧
    (_create_session world_init_fails 1 5 peer create_ok).1.sessions 5 = none ∧
    ((_create_session world_init_fails 1 5 peer create_ok).1.sockets 1).session =
      (world_init_fails.sockets 1).session ∧
    Event.cleanup 5 ∉ (_create_session world_init_fails 1 5 peer create_ok).1.log ∧
    ((_create_session world_init_fails 1 5 peer create_ok).1.sockets
        1).config.allowed_sessions = 9 ∧
    5 ∈ (_create_session world_init_fails 1 5 peer create_ok).1.timers := by
  decide

/-- C6 (amended): if `|in| <= maximum_input_buffer` held before a run of
`_parse_connection` and `receive_data` never lengthens `in`, then a session
that is still alive after the run either satisfies the bound, or the read
phase of that very run overflowed: the session was `ACTIVE`, READ was
delivered, `in` is the old input plus the bytes read, and the session now
waits in `SEND_AND_QUIT` with output still queued. -/
theorem C6_input_bound_or_draining (w : World) (fd : Nat) (flags : olsr_sockethandler_flags)
    (o : parse_outcome) (s s' : olsr_stream_session)
    (h : w.sessions fd = some s)
    (h_in : s.in_.length ≤ (w.sockets s.comport).config.maximum_input_buffer)
    (h_cb : ∀ f, (w.sockets s.comport).config.receive_data = some f →
      ∀ t, (f t).1.length ≤ t.in_.length)
    (h_alive : (_parse_connection w fd flags o).sessions fd = some s') :
    s'.in_.length ≤ (w.sockets s.comport).config.maximum_input_buffer ∨
    (s'.state = STREAM_SESSION_SEND_AND_QUIT ∧ s'.out ≠ [] ∧
      s.state = STREAM_SESSION_ACTIVE ∧ flags.OLSR_SOCKET_READ = true ∧
      s'.in_ = s.in_ ++ o.recv.buffer) := by
  rw [parse_connection_sessions w fd flags o s h] at h_alive
  split_ifs at h_alive with hw hc
  · cases h_alive
    rw [(parse_connection_connect_frame s flags o).1]
    exact Or.inl h_in
  · cases h_alive
    rw [parse_connection_connect_done s flags o (by simpa using hw)] at hc ⊢
    simp only [parse_connection_body] at hc ⊢
    generalize (w.sockets s.comport).config = cfg at *
    have h1 := parse_connection_recv_in w fd { s with wait_for_connect := false } cfg flags o h_in
    generalize parse_connection_recv w fd { s with wait_for_connect := false } cfg flags o = r1 at *
    have h2 := parse_connection_receive_in r1.1 fd r1.2 cfg h_cb
    have h2f := (parse_connection_receive_frame r1.1 fd r1.2 cfg).2.2.2
    generalize parse_connection_receive r1.1 fd r1.2 cfg = r2 at *
    have h3 := parse_connection_send_frame r2.1 fd r2.2 cfg flags o
    generalize parse_connection_send r2.1 fd r2.2 cfg flags o = r3 at *
    have h4 := parse_connection_drain_frame r3.2
    generalize parse_connection_drain r3.2 = s4 at *
    rcases h1 with h1 | ⟨hst, hact, hrd, hin⟩
    · left
      rw [h4.1, h3.1]
      exact le_trans h2 h1
    · right
      have e2 := h2f (by rw [hst]; decide)
      subst e2
      have e4 : s4.state = r3.2.state := by
        rcases h4.2.2.2.2.2 with e | e
        · exact e
        · exact absurd e hc
      have e3 : r3.2.state = STREAM_SESSION_SEND_AND_QUIT := by
        rcases h3.2.2.2 with e | e
        · rw [e]; exact hst
        · exact absurd (e4.trans e) hc
      have e5 : s4.state = STREAM_SESSION_SEND_AND_QUIT := e4.trans e3
      refine ⟨e5, ?_, hact, hrd, ?_⟩
      · rw [h4.2.1]
        exact (h4.2.2.2.2.1 e5).2
      · rw [h4.1, h3.1]
        exact hin

/-- C6 witness: the echo listener (8-byte cap) reads three bytes into an
empty `in`; the parser consumes them, and the session stays alive within the
bound. -/
theorem C6_input_bound_or_draining_witness :
    session_five_echoed.in_.length ≤
        (world_echo.sockets session_five.comport).config.maximum_input_buffer ∨
    (session_five_echoed.state = STREAM_SESSION_SEND_AND_QUIT ∧
      session_five_echoed.out ≠ [] ∧
      session_five.state = STREAM_SESSION_ACTIVE ∧ flags_read.OLSR_SOCKET_READ = true ∧
      session_five_echoed.in_ = session_five.in_ ++ outcome_recv3.recv.buffer) :=
  C6_input_bound_or_draining world_echo 5 flags_read outcome_recv3 session_five
    session_five_echoed (by decide) (by decide)
    (fun f hf t => by
      have hn : (world_echo.sockets session_five.comport).config.receive_data =
          some echo_receive_data := rfl
      rw [hn] at hf
      cases hf
      exact Nat.zero_le _)
    (by decide)

/-- C6 counterexample: `maximum_input_buffer = 8`, `in` empty before the run;
sixteen bytes arrive with only READ delivered.  `create_error` queues its
reply, so the session returns alive (in `SEND_AND_QUIT`) with `|in| = 16`. -/
theorem C6_counterexample_overflow_stays_alive :
    (world_quota_used.sockets 1).config.maximum_input_buffer = 8 ∧
    (world_quota_used.sessions 5).map (fun s => s.in_.length) = some 0 ∧
    ((_parse_connection world_quota_used 5 flags_read outcome_recv16).sessions 5).map
      (fun s => s.in_.length) = some 16 ∧
    ((_parse_connection world_quota_used 5 flags_read outcome_recv16).sessions 5).map
      (fun s => s.state) = some STREAM_SESSION_SEND_AND_QUIT ∧
    ¬ (∀ s, (_parse_connection world_quota_used 5 flags_read outcome_recv16).sessions 5
        = some s →
      s.in_.length ≤ (world_quota_used.sockets 1).config.maximum_input_buffer) := by
  refine ⟨by decide, by decide, by decide, by decide, ?_⟩
  intro hall
  have h16 : ((_parse_connection world_quota_used 5 flags_read outcome_recv16).sessions 5).map
      (fun s => s.in_.length) = some 16 := by decide
  cases hs : (_parse_connection world_quota_used 5 flags_read outcome_recv16).sessions 5 with
  | none => rw [hs] at h16; cases h16
  | some s =>
    have hb := hall s hs
    rw [hs] at h16
    simp only [Option.map_some'] at h16
    have h8 : (world_quota_used.sockets 1).config.maximum_input_buffer = 8 := by decide
    rw [h8] at hb
    have := Option.some.inj h16
    omega

/-- C7: for a session in `SEND_AND_QUIT` that is not waiting for its connect,
with `rest` the bytes of `out` left after the write phase: the run closes the
session exactly when `rest` is empty or the write failed fatally; otherwise
the session stays alive in `SEND_AND_QUIT` and its `out` is `rest`, the unsent
tail of the old `out`. -/
theorem C7_send_and_quit_drains (w : World) (fd : Nat) (flags : olsr_sockethandler_flags)
    (o : parse_outcome) (s : olsr_stream_session) (rest : List Nat)
    (h : w.sessions fd = some s)
    (h_state : s.state = STREAM_SESSION_SEND_AND_QUIT)
    (h_wait : s.wait_for_connect = false)
    (h_rest : rest = if flags.OLSR_SOCKET_WRITE then
        s.out.drop (o.send.len s.out.length).toNat else s.out) :
    ((_parse_connection w fd flags o).sessions fd = none ↔
      (rest = [] ∨
        (s.out ≠ [] ∧ flags.OLSR_SOCKET_WRITE = true ∧ o.send = send_result.error false))) ∧
    (rest ≠ [] →
      ¬ (s.out ≠ [] ∧ flags.OLSR_SOCKET_WRITE = true ∧ o.send = send_result.error false) →
      ∃ s', (_parse_connection w fd flags o).sessions fd = some s' ∧
        s'.state = STREAM_SESSION_SEND_AND_QUIT ∧ s'.out = rest ∧ s'.in_ = s.in_) := by
  rw [parse_connection_sessions w fd flags o s h, parse_connection_connect_idle s flags o h_wait]
  rw [parse_connection_body_quit w fd s _ flags o (by rw [h_state]; decide)]
  simp only [h_wait, Bool.false_eq_true, if_false]
  subst h_rest
  cases hW : flags.OLSR_SOCKET_WRITE
  · by_cases hout : s.out = []
    · simp [parse_connection_send, parse_connection_drain, olsr_stream_flush,
        olsr_socket_disable_write, olsr_socket_enable_write, h_state, hW, hout]
    · have hlen : 0 < s.out.length := List.length_pos.mpr hout
      simp [parse_connection_send, parse_connection_drain, olsr_stream_flush,
        olsr_socket_disable_write, olsr_socket_enable_write, h_state, hW, hout, hlen]
  · cases hS : o.send with
    | sent room =>
      by_cases hout : s.out = []
      · simp [parse_connection_send, parse_connection_drain, olsr_stream_flush,
          olsr_socket_disable_write, olsr_socket_enable_write, h_state, hW, hS, hout,
          send_result.len, abuf_pull]
      · have hlen : 0 < s.out.length := List.length_pos.mpr hout
        by_cases hroom : room = 0
        · simp [parse_connection_send, parse_connection_drain, olsr_stream_flush,
            olsr_socket_disable_write, olsr_socket_enable_write, h_state, hW, hS, hout, hlen,
            send_result.len, abuf_pull, hroom]
        · have hroom1 : 0 < room := Nat.pos_of_ne_zero hroom
          simp [parse_connection_send, parse_connection_drain, olsr_stream_flush,
            olsr_socket_disable_write, olsr_socket_enable_write, h_state, hW, hS, hout, hlen,
            send_result.len, abuf_pull, hroom, hroom1]
          have key : ((room : Int) ⊓ (s.out.length : Int)).toNat = min room s.out.length := by
            omega
          simp only [key]
          by_cases hle : s.out.length ≤ room
          · simp [Nat.min_eq_right hle, hle]
          · have hlt : room < s.out.length := Nat.lt_of_not_le hle
            have hsub : s.out.length - room ≠ 0 := by omega
            simp [Nat.min_eq_left (Nat.le_of_lt hlt), hle, hlt, hsub]
    | error b =>
      have hS := hS
      by_cases hout : s.out = []
      · simp [parse_connection_send, parse_connection_drain, olsr_stream_flush,
          olsr_socket_disable_write, olsr_socket_enable_write, h_state, hW, hS, hout,
          send_result.len, abuf_pull]
      · have hlen : 0 < s.out.length := List.length_pos.mpr hout
        cases b <;>
        simp [parse_connection_send, parse_connection_drain, olsr_stream_flush,
          olsr_socket_disable_write, olsr_socket_enable_write, h_state, hW, hS, hout, hlen,
          send_result.len, abuf_pull, send_result.errno_retry]

/-- C7 witness: the rejected session 6 has two bytes queued and the socket
takes one: it stays alive in `SEND_AND_QUIT` with the second byte at the head
of `out`. -/
theorem C7_send_and_quit_drains_witness :
    ∃ s', (_parse_connection world_quota_over 6 flags_write outcome_recv3).sessions 6
        = some s' ∧
      s'.state = STREAM_SESSION_SEND_AND_QUIT ∧ s'.out = [48] ∧ s'.in_ = session_six.in_ :=
  (C7_send_and_quit_drains world_quota_over 6 flags_write outcome_recv3 session_six [48]
    (by decide) (by decide) (by decide) (by decide)).2 (by decide) (by decide)

/-- C8 (code defect): an outbound session with `wait_for_connect = true`
receives WRITE readiness and `SO_ERROR` reports 111 (or the query fails).  The
run sets `CLEANUP` and returns at the `wait_for_connect` check: the session is
still allocated and linked, its idle timer is still armed, and neither
`cleanup` nor `os_close` was called.  A session that is not waiting is torn
down in the same run. -/
theorem C8_failed_connect_is_left_unclosed :
    (world_connecting.sessions 5).map (fun s => (s.wait_for_connect, s.state)) =
      some (true, STREAM_SESSION_ACTIVE) ∧
    5 ∈ world_connecting.timers ∧
    ((_parse_connection world_connecting 5 flags_write outcome_refused).sessions 5).map
      (fun s => (s.wait_for_connect, s.state)) = some (true, STREAM_SESSION_CLEANUP) ∧
    ((_parse_connection world_connecting 5 flags_write outcome_refused).sockets 1).session
      = [5] ∧
    5 ∈ (_parse_connection world_connecting 5 flags_write outcome_refused).timers ∧
    Event.cleanup 5 ∉ (_parse_connection world_connecting 5 flags_write outcome_refused).log ∧
    Event.os_close 5 ∉ (_parse_connection world_connecting 5 flags_write outcome_refused).log ∧
    ((_parse_connection world_connecting 5 flags_write outcome_sockopt_fails).sessions 5).map
      (fun s => (s.wait_for_connect, s.state)) = some (true, STREAM_SESSION_CLEANUP) ∧
    Event.cleanup 5 ∉
      (_parse_connection world_connecting 5 flags_write outcome_sockopt_fails).log ∧
    (_parse_connection world_timeout_session 5 flags_read outcome_recv_fatal).sessions 5
      = none ∧
    5 ∉ (_parse_connection world_timeout_session 5 flags_read outcome_recv_fatal).timers ∧
    ((_parse_connection world_timeout_session 5 flags_read outcome_recv_fatal).log.count
      (Event.cleanup 5)) = 1 := by
  decide

/-- C9 (amended): after a run of `_parse_connection` that leaves the session
alive and no longer waiting for its connect, WRITE interest is registered if
and only if `out` is non-empty, provided WRITE was only delivered while WRITE
interest was registered. -/
theorem C9_write_interest_iff_output (w : World) (fd : Nat) (flags : olsr_sockethandler_flags)
    (o : parse_outcome) (s s' : olsr_stream_session)
    (h : w.sessions fd = some s)
    (h_flags : flags.OLSR_SOCKET_WRITE = true → s.scheduler_entry.event_write = true)
    (h_alive : (_parse_connection w fd flags o).sessions fd = some s')
    (h_conn : s'.wait_for_connect = false) :
    (s'.scheduler_entry.event_write = true ↔ s'.out ≠ []) := by
  rw [parse_connection_sessions w fd flags o s h] at h_alive
  split_ifs at h_alive with hw hc
  · cases h_alive
    rw [hw] at h_conn
    cases h_conn
  · cases h_alive
    rw [parse_connection_connect_done s flags o (by simpa using hw)] at hc ⊢
    simp only [parse_connection_body] at hc ⊢
    generalize (w.sockets s.comport).config = cfg at *
    have h1f :=
      (parse_connection_recv_frame w fd { s with wait_for_connect := false } cfg flags o).1
    generalize parse_connection_recv w fd { s with wait_for_connect := false } cfg flags o = r1 at *
    have h2f := (parse_connection_receive_frame r1.1 fd r1.2 cfg).1
    generalize parse_connection_receive r1.1 fd r1.2 cfg = r2 at *
    exact parse_connection_tail_write r2.1 fd r2.2 cfg flags o
      (fun hW => by rw [h2f, h1f]; exact h_flags hW) hc

/-- C9 witness: the rejected session 6 after one byte of its two-byte reply
was sent: WRITE interest is registered and `out` is `[48]`. -/
theorem C9_write_interest_iff_output_witness :
    (session_six_sent.scheduler_entry.event_write = true ↔ session_six_sent.out ≠ []) :=
  C9_write_interest_iff_output world_quota_over 6 flags_write outcome_recv3 session_six
    session_six_sent (by decide) (by decide) (by decide) (by decide)

/-- C9 counterexample: an outbound session still waiting for its connect gets
a READ event.  The run returns with the session alive, WRITE interest
registered (as set at creation) and `out` empty. -/
theorem C9_counterexample_waiting_for_connect :
    ((_parse_connection world_connecting 5 flags_read outcome_recv3).sessions 5).map
      (fun s => (s.scheduler_entry.event_write, s.out, s.wait_for_connect)) =
      some (true, [], true) ∧
    ¬ (∀ s, (_parse_connection world_connecting 5 flags_read outcome_recv3).sessions 5
        = some s → (s.scheduler_entry.event_write = true ↔ s.out ≠ [])) := by
  refine ⟨by decide, ?_⟩
  intro hall
  have hm : ((_parse_connection world_connecting 5 flags_read outcome_recv3).sessions 5).map
      (fun s => (s.scheduler_entry.event_write, s.out, s.wait_for_connect)) =
      some (true, [], true) := by decide
  cases hs : (_parse_connection world_connecting 5 flags_read outcome_recv3).sessions 5 with
  | none => rw [hs] at hm; cases hm
  | some s =>
    have hb := hall s hs
    rw [hs] at hm
    simp only [Option.map_some', Option.some.injEq, Prod.mk.injEq] at hm
    exact (hb.mp hm.1) hm.2.1

/-- C10 (code defect): session 5 has its idle timer armed.  After
`olsr_stream_close` called directly, and after `olsr_stream_remove` of its
listener, the session is freed while its timer is still armed in the timer
wheel; only the teardown inside `_parse_connection` stops the timer before
closing. -/
theorem C10_close_leaves_timer_armed :
    (world_timeout_session.sessions 5).isSome = true ∧
    5 ∈ world_timeout_session.timers ∧
    (olsr_stream_close world_timeout_session 5).sessions 5 = none ∧
    5 ∈ (olsr_stream_close world_timeout_session 5).timers ∧
    (olsr_stream_remove world_timeout_session 1).sessions 5 = none ∧
    5 ∈ (olsr_stream_remove world_timeout_session 1).timers ∧
    (_parse_connection world_timeout_session 5 flags_read outcome_recv_fatal).sessions 5
      = none ∧
    5 ∉ (_parse_connection world_timeout_session 5 flags_read outcome_recv_fatal).timers := by
  decide

/-- C11 (code defect): the active managed endpoint (registry `[v4, v6]`, one
session on v4) is applied with its unchanged configuration while IPv6 is
switched off.  The first call returns success but unlinks the v4 listener
(the first registry element) instead of v6; the second call with the same
configuration and switches returns success too and now removes the v6
listener and closes its fd 4: the registry differs before and after it. -/
theorem C11_second_apply_removes_listener :
    world_managed_session.olsr_stream_head = [1, 2] ∧
    world_managed_v6_off.2.2 = 0 ∧
    world_managed_v6_off.1.olsr_stream_head = [2] ∧
    Event.os_close 4 ∉ world_managed_v6_off.1.log ∧
    world_managed_v6_off_again.2.2 = 0 ∧
    world_managed_v6_off_again.1.olsr_stream_head = [] ∧
    world_managed_v6_off_again.1.olsr_stream_head ≠ world_managed_v6_off.1.olsr_stream_head ∧
    Event.os_close 4 ∈ world_managed_v6_off_again.1.log ∧
    Event.olsr_socket_remove 4 ∈ world_managed_v6_off_again.1.log := by
  decide

/-- C12: over every sequence of `_parse_connection` runs on one session the
log gains at most one `create_error(REQUEST_TOO_LARGE)` call.  A session that
is not `ACTIVE` is never `ACTIVE` again over any sequence of runs, its `in` is
not read into and neither `receive_data` nor `create_error(REQUEST_TOO_LARGE)`
is called for it.  A run whose read overflows the cap calls `create_error`
once (when set) and not `receive_data`, leaves the session, if still alive, in
`SEND_AND_QUIT`, and closes it in that same run when `out` is empty after the
callback. -/
theorem C12_too_large_at_most_once (w : World) (fd : Nat)
    (evs : List (olsr_sockethandler_flags × parse_outcome))
    (flags : olsr_sockethandler_flags) (o : parse_outcome)
    (s : olsr_stream_session) (h : w.sessions fd = some s) :
    ((parse_connection_run w fd evs).log.count
        (Event.create_error fd STREAM_REQUEST_TOO_LARGE) ≤
      w.log.count (Event.create_error fd STREAM_REQUEST_TOO_LARGE) + 1) ∧
    (s.state ≠ STREAM_SESSION_ACTIVE →
      (∀ s', (parse_connection_run w fd evs).sessions fd = some s' →
        s'.state ≠ STREAM_SESSION_ACTIVE ∧ s'.in_ = s.in_) ∧
      (parse_connection_run w fd evs).log.count
          (Event.create_error fd STREAM_REQUEST_TOO_LARGE) =
        w.log.count (Event.create_error fd STREAM_REQUEST_TOO_LARGE) ∧
      (parse_connection_run w fd evs).log.count (Event.receive_data fd) =
        w.log.count (Event.receive_data fd)) ∧
    (s.state = STREAM_SESSION_ACTIVE →
      (parse_connection_connect s flags o).wait_for_connect = false →
      flags.OLSR_SOCKET_READ = true → 0 < o.recv.len → o.abuf_memcpy_fail = false →
      (w.sockets s.comport).config.maximum_input_buffer < (s.in_ ++ o.recv.buffer).length →
      (_parse_connection w fd flags o).log.count
          (Event.create_error fd STREAM_REQUEST_TOO_LARGE) =
        w.log.count (Event.create_error fd STREAM_REQUEST_TOO_LARGE) +
          (if (w.sockets s.comport).config.create_error.isSome then 1 else 0) ∧
      (_parse_connection w fd flags o).log.count (Event.receive_data fd) =
        w.log.count (Event.receive_data fd) ∧
      (∀ s', (_parse_connection w fd flags o).sessions fd = some s' →
        s'.state = STREAM_SESSION_SEND_AND_QUIT ∧ s'.in_ = s.in_ ++ o.recv.buffer) ∧
      (s.out = [] →
        (∀ f, (w.sockets s.comport).config.create_error = some f →
          f { s with wait_for_connect := false, in_ := s.in_ ++ o.recv.buffer }
            STREAM_REQUEST_TOO_LARGE = []) →
        (_parse_connection w fd flags o).sessions fd = none)) := by
  refine ⟨parse_connection_run_count fd evs w, fun hst => ?_, ?_⟩
  · obtain ⟨hA, hE, hR⟩ := parse_connection_run_inactive fd evs w
      (fun t ht => by rw [h] at ht; cases ht; exact hst)
    exact ⟨fun s' h' => ⟨(hA s' h').1, (hA s' h').2 s h⟩, hE, hR⟩
  · intro hst hw hrd hlen hmem hov
    rw [parse_connection_log_count w fd flags o s h _ (Or.inl ⟨_, _, rfl⟩),
      parse_connection_log_count w fd flags o s h _ (Or.inr ⟨_, rfl⟩),
      parse_connection_sessions w fd flags o s h]
    rw [parse_connection_connect_done s flags o hw]
    simp only [Bool.false_eq_true, if_false, parse_connection_body]
    generalize (w.sockets s.comport).config = cfg at *
    obtain ⟨r_state, r_in, r_out, r_log⟩ := parse_connection_recv_overflow w fd
      { s with wait_for_connect := false } cfg flags o hst hrd hlen hmem hov
    generalize parse_connection_recv w fd { s with wait_for_connect := false } cfg flags o
      = r1 at r_state r_in r_out r_log ⊢
    have e2 := (parse_connection_receive_frame r1.1 fd r1.2 cfg).2.2.2
      (by rw [r_state]; decide)
    rw [e2]
    have h3l := parse_connection_send_log r1.1 fd r1.2 cfg flags o
    have h3 := parse_connection_send_frame r1.1 fd r1.2 cfg flags o
    have h4 := parse_connection_drain_frame (parse_connection_send r1.1 fd r1.2 cfg flags o).2
    refine ⟨?_, ?_, ?_, ?_⟩
    · rw [h3l, r_log]
      cases cfg.create_error <;> simp
    · rw [h3l, r_log]
      cases cfg.create_error <;> simp
    · intro s' h'
      split_ifs at h' with hcl
      cases h'
      refine ⟨?_, by rw [h4.1, h3.1, r_in]⟩
      rcases h4.2.2.2.2.2 with e | e
      · rw [e]
        rcases h3.2.2.2 with e3 | e3
        · rw [e3, r_state]
        · exact absurd (e.trans e3) hcl
      · exact absurd e hcl
    · intro hout hcb
      have hout1 : r1.2.out = [] := by
        rw [r_out]
        cases hce : cfg.create_error with
        | none => simpa using hout
        | some f =>
          have hf := hcb f hce
          simp only [List.append_eq_nil]
          exact ⟨hout, hf⟩
      have hsend : (parse_connection_send r1.1 fd r1.2 cfg flags o).2 = r1.2 := by
        simp [parse_connection_send, hout1]
      have hdr : (parse_connection_drain r1.2).state = STREAM_SESSION_CLEANUP := by
        simp [parse_connection_drain, hout1, r_state]
      rw [hsend]
      simp [hdr]

/-- C12 witness: with an 8-byte cap and a `create_error` that queues nothing,
sixteen bytes arrive: `create_error(REQUEST_TOO_LARGE)` is called once over the
whole event sequence and the session is closed in the overflowing run; the
rejected session 6 of the quota-one listener (already `SEND_AND_QUIT`) sees no
`receive_data` call over the same events. -/
theorem C12_too_large_at_most_once_witness :
    ((parse_connection_run world_cap 5 events_overflow).log.count
        (Event.create_error 5 STREAM_REQUEST_TOO_LARGE) ≤
      world_cap.log.count (Event.create_error 5 STREAM_REQUEST_TOO_LARGE) + 1) ∧
    (parse_connection_run world_cap 5 events_overflow).log.count
        (Event.create_error 5 STREAM_REQUEST_TOO_LARGE) = 1 ∧
    (_parse_connection world_cap 5 flags_read outcome_recv16).sessions 5 = none ∧
    (parse_connection_run world_quota_over 6 events_overflow).log.count
        (Event.receive_data 6) = world_quota_over.log.count (Event.receive_data 6) :=
  ⟨(C12_too_large_at_most_once world_cap 5 events_overflow flags_read outcome_recv16
      session_five (by decide)).1,
   by decide,
   ((C12_too_large_at_most_once world_cap 5 events_overflow flags_read outcome_recv16
      session_five (by decide)).2.2 (by decide) (by decide) (by decide) (by decide)
      (by decide) (by decide)).2.2.2 (by decide)
      (fun f hf => by
        have hn : (world_cap.sockets session_five.comport).config.create_error =
            some (fun _ _ => []) := rfl
        rw [hn] at hf
        cases hf
        rfl),
   ((C12_too_large_at_most_once world_quota_over 6 events_overflow flags_read
      outcome_recv16 session_six (by decide)).2.1 (by decide)).2.2⟩

end OlsrStream
